import Mathlib

/-!
# Verification of the strategy backtesting / technical-indicator core

Shallow embedding of the backtesting and optimization engine
(`backend/app/services/trading_strategies/strategy.py`) and the
technical-indicator library
(`backend/app/services/technical_analysis/indicators.py`).

Prices and percentages are modelled as rationals (`ℚ`); the Bollinger-band
computation, which takes a square root, is modelled over the reals (`ℝ`).
Timestamps are modelled as raw integers (the source converts them to ISO
strings only for display).  Rule `description` strings and the
`created_at` timestamp, which no computation reads, are elided from the
strategy model.
-/

/-- One OHLCV candle (`'time'`, `'open'`, `'high'`, `'low'`, `'close'`,
`'volume'` keys of the source dictionaries).  `open_` stands for the
source's `open` field, which is a reserved word in Lean. -/
structure Bar where
  time : ℤ
  open_ : ℚ
  high : ℚ
  low : ℚ
  close : ℚ
  volume : ℚ
  deriving DecidableEq, Repr, Inhabited

/-- A `(time, value)` point of an indicator series (rational-valued). -/
structure TimeValue where
  time : ℤ
  value : ℚ
  deriving DecidableEq, Repr, Inhabited

/-- A `(time, value)` point of a real-valued indicator series (used by the
Bollinger bands, whose values involve a square root). -/
structure TimeValueR where
  time : ℤ
  value : ℝ

/-- Sum of the trailing window of length `p` ending at index `i`
(`xs[i+1-p : i+1]` in slice notation); mirrors what
`rolling(window=p).mean()` sums at row `i`. -/
def windowSum (p : ℕ) (xs : List ℚ) (i : ℕ) : ℚ :=
  ((xs.drop (i + 1 - p)).take p).sum

/-- `calculate_sma` (indicators.py, lines 26-48): rolling mean of `close`
with window `period`; rows whose rolling mean is `NaN` (the first
`period-1` rows) are skipped. -/
def calculate_sma (data : List Bar) (period : ℕ) : List TimeValue :=
  (List.range data.length).filterMap (fun i =>
    if period ≤ i + 1 then
      some ⟨(data.getD i default).time,
        windowSum period (data.map Bar.close) i / (period : ℚ)⟩
    else none)

/-- `ewm(span=span, adjust=False).mean()`: recursive exponential smoothing
with `α = 2/(span+1)`, seeded at the first element. -/
def ewm (span : ℕ) : List ℚ → List ℚ
  | [] => []
  | x :: rest =>
    List.scanl (fun e c => (2 / ((span : ℚ) + 1)) * c
      + (1 - 2 / ((span : ℚ) + 1)) * e) x rest

/-- `calculate_ema` (indicators.py, lines 50-72): exponential moving
average of `close`; every bar produces output (no `NaN` rows). -/
def calculate_ema (data : List Bar) (period : ℕ) : List TimeValue :=
  List.zipWith (fun b v => ⟨b.time, v⟩) data (ewm period (data.map Bar.close))

/-- Close-to-close deltas as produced by `df['close'].diff()`: `NaN`
(`none`) at index 0, `close[i] - close[i-1]` afterwards. -/
def closeDiffs (xs : List ℚ) : List (Option ℚ) :=
  none :: List.zipWith (fun a b => some (b - a)) xs xs.tail

/-- Rolling mean with window `p` over a series containing `NaN`s
(`none`s): defined at index `i` iff the window fits and contains no
`NaN`, mirroring pandas `NaN` propagation through `rolling().mean()`. -/
def rollingMeanOpt (p : ℕ) (xs : List (Option ℚ)) (i : ℕ) : Option ℚ :=
  if p ≤ i + 1 then
    let win := (xs.drop (i + 1 - p)).take p
    if win.all Option.isSome then
      some ((win.map (fun o => o.getD 0)).sum / (p : ℚ))
    else none
  else none

/-- `calculate_rsi` (indicators.py, lines 74-113): gains/losses from the
close deltas, `period`-bar rolling averages, `RSI = 100 - 100/(1+RS)`.
Division of a positive average gain by a zero average loss yields IEEE
`inf` and hence `RSI = 100`; `0/0` yields `NaN` and the row is skipped. -/
def calculate_rsi (data : List Bar) (period : ℕ) : List TimeValue :=
  let deltas := closeDiffs (data.map Bar.close)
  let gains := deltas.map (Option.map (fun d => if d < 0 then 0 else d))
  let losses := deltas.map (Option.map (fun d => if 0 < d then 0 else -d))
  (List.range data.length).filterMap (fun i =>
    match rollingMeanOpt period gains i, rollingMeanOpt period losses i with
    | some g, some l =>
      if l = 0 then
        if g = 0 then none
        else some ⟨(data.getD i default).time, 100⟩
      else some ⟨(data.getD i default).time, 100 - 100 / (1 + g / l)⟩
    | _, _ => none)

/-- The three series returned by `calculate_macd`. -/
structure MacdResult where
  macd : List TimeValue
  signal : List TimeValue
  histogram : List TimeValue
  deriving DecidableEq, Repr, Inhabited

/-- `calculate_macd` (indicators.py, lines 115-167): MACD line = fast EMA
minus slow EMA, signal = EMA of the MACD line, histogram = difference.
None of the series contains `NaN`, so every bar produces output. -/
def calculate_macd (data : List Bar) (fast_period slow_period signal_period : ℕ) :
    MacdResult :=
  let closes := data.map Bar.close
  let macdLine := List.zipWith (fun f s => f - s)
    (ewm fast_period closes) (ewm slow_period closes)
  let signalLine := ewm signal_period macdLine
  let histLine := List.zipWith (fun m s => m - s) macdLine signalLine
  { macd := List.zipWith (fun b v => ⟨b.time, v⟩) data macdLine
    signal := List.zipWith (fun b v => ⟨b.time, v⟩) data signalLine
    histogram := List.zipWith (fun b v => ⟨b.time, v⟩) data histLine }

/-- Sample variance (`ddof = 1`, pandas `rolling().std()` default) of the
trailing window of length `p` ending at index `i`. -/
def sampleVariance (p : ℕ) (xs : List ℚ) (i : ℕ) : ℚ :=
  let win := (xs.drop (i + 1 - p)).take p
  let m := win.sum / (p : ℚ)
  (win.map (fun x => (x - m) ^ 2)).sum / ((p : ℚ) - 1)

/-- The rolling standard deviation of `df['close'].rolling(period).std()`
at row `i` (sample standard deviation, `ddof = 1`). -/
noncomputable def rollingStd (p : ℕ) (xs : List ℚ) (i : ℕ) : ℝ :=
  Real.sqrt ((sampleVariance p xs i : ℚ) : ℝ)

/-- The three series returned by `calculate_bollinger_bands`. -/
structure BollingerBands where
  upper : List TimeValueR
  middle : List TimeValueR
  lower : List TimeValueR

/-- `calculate_bollinger_bands` (indicators.py, lines 169-217): middle =
rolling mean of `close`, upper/lower = middle ± rolling standard
deviation × `std_dev`.  A row is emitted iff middle, upper and lower are
all non-`NaN`: the rolling mean exists from index `period - 1`, and the
sample standard deviation additionally needs `period ≥ 2` (pandas
`rolling().std()` with `ddof = 1` is `NaN` on a single observation). -/
noncomputable def calculate_bollinger_bands (data : List Bar) (period : ℕ)
    (std_dev : ℝ) : BollingerBands :=
  let closes := data.map Bar.close
  { upper := (List.range data.length).filterMap (fun i =>
      if period ≤ i + 1 ∧ 2 ≤ period then
        some ⟨(data.getD i default).time,
          ((windowSum period closes i / (period : ℚ) : ℚ) : ℝ)
            + rollingStd period closes i * std_dev⟩
      else none)
    middle := (List.range data.length).filterMap (fun i =>
      if period ≤ i + 1 ∧ 2 ≤ period then
        some ⟨(data.getD i default).time,
          ((windowSum period closes i / (period : ℚ) : ℚ) : ℝ)⟩
      else none)
    lower := (List.range data.length).filterMap (fun i =>
      if period ≤ i + 1 ∧ 2 ≤ period then
        some ⟨(data.getD i default).time,
          ((windowSum period closes i / (period : ℚ) : ℚ) : ℝ)
            - rollingStd period closes i * std_dev⟩
      else none) }

/-- Concrete witness data for the SMA claim: three ascending bars. -/
def smaBars : List Bar :=
  [⟨0, 1, 2, 0, 1, 1⟩, ⟨1, 2, 3, 1, 2, 1⟩, ⟨2, 3, 4, 2, 3, 1⟩]

/-- Modelled from the spec: the population standard deviation of a list
of closes (squared deviations from the mean averaged over the full count,
`ddof = 0`), used to compare the code's bands against the spec's wording. -/
noncomputable def populationStd (xs : List ℚ) : ℝ :=
  Real.sqrt ((((xs.map (fun x =>
    (x - xs.sum / (xs.length : ℚ)) ^ 2)).sum / (xs.length : ℚ) : ℚ) : ℝ))

/-- Two concrete bars (closes 0 and 2) on which the sample and population
standard deviations of the window differ. -/
def bbBars : List Bar :=
  [⟨0, 0, 1, -1, 0, 1⟩, ⟨1, 2, 3, 1, 2, 1⟩]

/-- Parameter dictionaries (`params`, strategy `parameters`) modelled as
association lists with unique keys; values are the naturals the source
stores there (periods, thresholds). -/
abbrev Params : Type := List (String × ℕ)

/-- Python dict assignment `d[k] = v`: replace the value in place if the
key exists (keeping its position), otherwise append the new key. -/
def insertParam (k : String) (v : ℕ) (ps : Params) : Params :=
  if ps.any (fun kv => kv.1 == k) then
    ps.map (fun kv => if kv.1 == k then (k, v) else kv)
  else ps ++ [(k, v)]

/-- `params.get(k, d)`: lookup with default. -/
def getParam (ps : Params) (k : String) (d : ℕ) : ℕ :=
  (ps.lookup k).getD d

/-- Python `str.split(sep)` for a single separator character, at the
character-list level (structural recursion, so that concrete instances
reduce inside the kernel). -/
def splitOnChar (c : Char) : List Char → List (List Char)
  | [] => [[]]
  | x :: xs =>
    match splitOnChar c xs with
    | [] => [[]]
    | h :: t => if x = c then [] :: h :: t else (x :: h) :: t

/-- Python `str.upper()` restricted to ASCII, character by character. -/
def upperChar (c : Char) : Char :=
  if 'a' ≤ c ∧ c ≤ 'z' then Char.ofNat (c.toNat - 32) else c

/-- `str.upper()` on a character list, repackaged as a `String`. -/
def upperAscii (cs : List Char) : String :=
  String.mk (cs.map upperChar)

/-- Python `s.isdigit() and int(s)` for a character list: `some n` iff the
list is non-empty and all characters are ASCII digits. -/
def digitsToNat (cs : List Char) : Option ℕ :=
  if cs ≠ [] ∧ cs.all Char.isDigit then
    some (cs.foldl (fun n c => n * 10 + (c.toNat - 48)) 0)
  else none

/-- The indicator-type parsing of `calculate_indicator` (indicators.py,
lines 233-241): if the name contains `'_'`, the base type is the
upper-cased first part, and a period is extracted iff the second part is
a digit sequence.  Returns the base type and the optional embedded
period. -/
def parseIndicatorType (indicator_type : String) : String × Option ℕ :=
  if indicator_type.toList.contains '_' then
    let parts := splitOnChar '_' indicator_type.toList
    (upperAscii (parts.getD 0 []), digitsToNat (parts.getD 1 []))
  else (upperAscii indicator_type.toList, none)

/-- The value returned by `calculate_indicator`: a single series, the
three MACD series, or the three Bollinger bands. -/
inductive IndicatorOutput where
  | series : List TimeValue → IndicatorOutput
  | macdOut : MacdResult → IndicatorOutput
  | bands : BollingerBands → IndicatorOutput

/-- `calculate_indicator` (indicators.py, lines 219-263), with the mutation
of the caller's `params` dict made explicit by state passing: the result
is paired with the caller's dict **after** the call.  `params = params or
dict()` replaces a missing (`none`) or empty (falsy) caller dict by a
fresh one, so writes to the fresh dict are invisible to the caller; a
non-empty caller dict is aliased and the embedded period is written into
it.  Unsupported base types raise `ValueError`, modelled as
`Except.error`. -/
noncomputable def calculate_indicator (data : List Bar) (indicator_type : String)
    (params0 : Option Params) : Except String IndicatorOutput × Params :=
  let supplied : Params := params0.getD []
  let parsed := parseIndicatorType indicator_type
  let paramsLocal : Params :=
    match parsed.2 with
    | some n => insertParam "period" n supplied
    | none => supplied
  let callerAfter : Params :=
    if supplied.isEmpty then supplied else paramsLocal
  let base := parsed.1
  let result : Except String IndicatorOutput :=
    if base = "SMA" then
      .ok (.series (calculate_sma data (getParam paramsLocal "period" 20)))
    else if base = "EMA" then
      .ok (.series (calculate_ema data (getParam paramsLocal "period" 20)))
    else if base = "RSI" then
      .ok (.series (calculate_rsi data (getParam paramsLocal "period" 14)))
    else if base = "MACD" then
      .ok (.macdOut (calculate_macd data (getParam paramsLocal "fast_period" 12)
        (getParam paramsLocal "slow_period" 26)
        (getParam paramsLocal "signal_period" 9)))
    else if base = "BB" ∨ base = "BOLLINGER" then
      .ok (.bands (calculate_bollinger_bands data (getParam paramsLocal "period" 20)
        ((getParam paramsLocal "std_dev" 2 : ℕ) : ℝ)))
    else .error ("Unsupported indicator type: " ++ indicator_type)
  (result, callerAfter)

/-- Python `str.startswith` at the character-list level (structurally
recursive so concrete instances reduce in the kernel). -/
def listIsPrefix : List Char → List Char → Bool
  | _, [] => true
  | [], _ :: _ => false
  | a :: as, b :: bs => a = b && listIsPrefix as bs

/-- Python `s.startswith(pre)`. -/
def strStartsWith (s pre : String) : Bool :=
  listIsPrefix s.toList pre.toList

/-- Python `s.endswith(suf)`. -/
def strEndsWith (s suf : String) : Bool :=
  listIsPrefix s.toList.reverse suf.toList.reverse

/-- One entry/exit rule of a strategy: the source builds heterogeneous
dicts, modelled as one record with optional fields (the human-readable
`description` strings are elided). -/
structure Rule where
  type : String
  action : String
  pattern : Option String := none
  indicator : Option String := none
  condition : Option String := none
  threshold : Option ℕ := none
  lookback : Option ℕ := none
  percent : Option ℚ := none
  deriving DecidableEq, Repr, Inhabited

/-- The `risk_management` block of a strategy. -/
structure RiskManagement where
  stop_loss_percent : ℚ
  take_profit_percent : ℚ
  max_position_size_percent : ℚ
  deriving DecidableEq, Repr, Inhabited

/-- A strategy document (strategy.py, lines 39-51); `description` and
`created_at`, which no computation reads, are elided. -/
structure Strategy where
  name : String
  entry_rules : List Rule
  exit_rules : List Rule
  risk_management : RiskManagement
  parameters : Params
  deriving DecidableEq, Repr, Inhabited

/-- A pattern match as consumed by `create_strategy`: only the
`'pattern'` and `'probability'` keys are read (with defaults `''` / `0`),
so the model carries exactly those. -/
structure PatternMatch where
  pattern : String
  probability : ℚ
  deriving DecidableEq, Repr, Inhabited

/-- Stable descending insertion by `probability`, modelling Python's
stable `sorted(patterns, key=lambda x: x.get('probability', 0),
reverse=True)`. -/
def insertByProbDesc (x : PatternMatch) : List PatternMatch → List PatternMatch
  | [] => [x]
  | y :: ys =>
    if y.probability < x.probability then x :: y :: ys
    else y :: insertByProbDesc x ys

/-- Stable sort, descending by probability. -/
def sortByProbDesc : List PatternMatch → List PatternMatch
  | [] => []
  | x :: xs => insertByProbDesc x (sortByProbDesc xs)

/-- The fresh strategy object `create_strategy` starts from
(strategy.py, lines 39-51). -/
def initialStrategy : Strategy :=
  { name := "Auto-generated Strategy"
    entry_rules := []
    exit_rules := []
    risk_management := ⟨2, 6, 5⟩
    parameters := [] }

/-- Pattern processing of `create_strategy` (strategy.py, lines 53-81):
the most probable pattern adds one directional entry rule when its name is
recognised. -/
def addPatternRules (patterns : List PatternMatch) (s : Strategy) : Strategy :=
  if 0 < patterns.length then
    if (sortByProbDesc patterns).headI.pattern = "double_bottom"
        ∨ (sortByProbDesc patterns).headI.pattern = "ascending_triangle" then
      { s with entry_rules := s.entry_rules ++
          [{ type := "pattern",
             pattern := some (sortByProbDesc patterns).headI.pattern,
             action := "buy" }] }
    else if (sortByProbDesc patterns).headI.pattern = "double_top"
        ∨ (sortByProbDesc patterns).headI.pattern = "head_and_shoulders"
        ∨ (sortByProbDesc patterns).headI.pattern = "descending_triangle" then
      { s with entry_rules := s.entry_rules ++
          [{ type := "pattern",
             pattern := some (sortByProbDesc patterns).headI.pattern,
             action := "sell" }] }
    else s
  else s

/-- `int(indicator_name.split("_")[1]) if "_" in indicator_name else
default`: the period embedded after the first underscore, raising
`ValueError` (modelled as `Except.error`) when the second part is not a
digit sequence. -/
def indicatorPeriod (name : String) (dflt : ℕ) : Except String ℕ :=
  if name.toList.contains '_' then
    match digitsToNat ((splitOnChar '_' name.toList).getD 1 []) with
    | some n => .ok n
    | none => .error ("invalid literal for int() with base 10: " ++ name)
  else .ok dflt

/-- Indicator processing of `create_strategy` (strategy.py, lines 83-210):
moving averages add four crossover rules and a period parameter; RSI adds
threshold-crossing rules and three parameters; MACD adds line/signal
crossover rules and its three fixed period parameters; anything else is
ignored. -/
def processIndicator (s : Strategy) (name : String) : Except String Strategy :=
  if strStartsWith name "SMA" || strStartsWith name "EMA" then do
    let period ← indicatorPeriod name 20
    .ok { s with
      entry_rules := s.entry_rules ++
        [{ type := "indicator", indicator := some name, action := "buy",
           condition := some "price_crosses_above" },
         { type := "indicator", indicator := some name, action := "sell",
           condition := some "price_crosses_below" }]
      exit_rules := s.exit_rules ++
        [{ type := "indicator", indicator := some name, action := "exit_long",
           condition := some "price_crosses_below" },
         { type := "indicator", indicator := some name, action := "exit_short",
           condition := some "price_crosses_above" }]
      parameters := insertParam (name ++ "_period") period s.parameters }
  else if strStartsWith name "RSI" then do
    let period ← indicatorPeriod name 14
    .ok { s with
      entry_rules := s.entry_rules ++
        [{ type := "indicator", indicator := some name, action := "buy",
           condition := some "crosses_above", threshold := some 30 },
         { type := "indicator", indicator := some name, action := "sell",
           condition := some "crosses_below", threshold := some 70 }]
      exit_rules := s.exit_rules ++
        [{ type := "indicator", indicator := some name, action := "exit_long",
           condition := some "crosses_above", threshold := some 70 },
         { type := "indicator", indicator := some name, action := "exit_short",
           condition := some "crosses_below", threshold := some 30 }]
      parameters := insertParam (name ++ "_oversold") 30
        (insertParam (name ++ "_overbought") 70
          (insertParam (name ++ "_period") period s.parameters)) }
  else if strStartsWith name "MACD" then
    .ok { s with
      entry_rules := s.entry_rules ++
        [{ type := "indicator", indicator := some "MACD", action := "buy",
           condition := some "line_crosses_above_signal" },
         { type := "indicator", indicator := some "MACD", action := "sell",
           condition := some "line_crosses_below_signal" }]
      exit_rules := s.exit_rules ++
        [{ type := "indicator", indicator := some "MACD", action := "exit_long",
           condition := some "line_crosses_below_signal" },
         { type := "indicator", indicator := some "MACD", action := "exit_short",
           condition := some "line_crosses_above_signal" }]
      parameters := insertParam "MACD_signal_period" 9
        (insertParam "MACD_slow_period" 26
          (insertParam "MACD_fast_period" 12 s.parameters)) }
  else .ok s

/-- The fallback entry rules (strategy.py, lines 212-228). -/
def fallbackEntryRules : List Rule :=
  [{ type := "price_action", action := "buy",
     condition := some "higher_high_higher_low", lookback := some 3 },
   { type := "price_action", action := "sell",
     condition := some "lower_high_lower_low", lookback := some 3 }]

/-- The fallback exit rules (strategy.py, lines 230-257), parameterized by
the strategy's risk-management percentages. -/
def fallbackExitRules (rm : RiskManagement) : List Rule :=
  [{ type := "stop_loss", action := "exit_long",
     percent := some rm.stop_loss_percent },
   { type := "stop_loss", action := "exit_short",
     percent := some rm.stop_loss_percent },
   { type := "take_profit", action := "exit_long",
     percent := some rm.take_profit_percent },
   { type := "take_profit", action := "exit_short",
     percent := some rm.take_profit_percent }]

/-- The fallback phase of `create_strategy` (strategy.py, lines 212-257):
default entry rules if none was produced, then default exit rules if none
was produced. -/
def finalizeRules (s1 : Strategy) : Strategy :=
  let s2 := if s1.entry_rules.isEmpty then
      { s1 with entry_rules := fallbackEntryRules }
    else s1
  if s2.exit_rules.isEmpty then
    { s2 with exit_rules := fallbackExitRules s2.risk_management }
  else s2

/-- `create_strategy` (strategy.py, lines 27-259): pattern rule, indicator
rules (in mapping order), then fallback entry/exit rules when the
respective list is still empty.  The `indicators` mapping's values are
never read, so the model takes the key list. -/
def create_strategy (patterns : List PatternMatch) (indicators : List String) :
    Except String Strategy :=
  Except.map finalizeRules
    (indicators.foldlM processIndicator (addPatternRules patterns initialStrategy))

/-- The strategy `create_strategy` builds from empty inputs. -/
def emptyInputStrategy : Strategy :=
  ((create_strategy [] []).toOption).getD default

/-- One row of the backtest DataFrame: the per-bar columns the simulation
loop writes (strategy.py, lines 298-304); `none` models `NaN`. -/
structure Row where
  time : ℤ
  position : ℤ
  entry_price : Option ℚ
  exit_price : Option ℚ
  stop_loss : Option ℚ
  take_profit : Option ℚ
  trade_result : Option ℚ
  deriving DecidableEq, Repr, Inhabited

/-- A row before the loop writes anything: position 0, all else `NaN`. -/
def defaultRow (t : ℤ) : Row :=
  ⟨t, 0, none, none, none, none, none⟩

/-- The loop-carried variables of the simulation
(strategy.py, lines 329-332). -/
structure SimState where
  position : ℤ
  entry_price : ℚ
  stop_loss : ℚ
  take_profit : ℚ
  deriving DecidableEq, Repr, Inhabited

/-- `position = 0, entry_price = 0, stop_loss = 0, take_profit = 0`. -/
def initSimState : SimState := ⟨0, 0, 0, 0⟩

/-- The moving average `df['close'].rolling(window=w).mean()` at row `i`
(`none` during warm-up). -/
def maAt (w : ℕ) (closes : List ℚ) (i : ℕ) : Option ℚ :=
  if w ≤ i + 1 then some (windowSum w closes i / (w : ℚ)) else none

/-- The signal column (strategy.py, lines 323-326): `1` where
`close > ma`, `-1` where `close < ma`, `0` otherwise (including the
warm-up rows, where comparison with `NaN` is false). -/
def signalAt (w : ℕ) (closes : List ℚ) (i : ℕ) : ℤ :=
  match maAt w closes i with
  | none => 0
  | some m =>
    if m < closes.getD i 0 then 1
    else if closes.getD i 0 < m then -1
    else 0

/-- The exit checks of one loop iteration (strategy.py, lines 335-374):
for a long position, stop-loss, then take-profit, then bearish signal
flip; mirrored for a short position.  Returns the updated state and the
columns written at this bar. -/
def exitPhase (bar : Bar) (sig sigPrev : ℤ) (st : SimState) : SimState × Row :=
  if st.position = 1 then
    if bar.low ≤ st.stop_loss then
      ({ st with position := 0 },
       { (defaultRow bar.time) with
         position := 0
         exit_price := some st.stop_loss
         trade_result := some ((st.stop_loss / st.entry_price - 1) * 100) })
    else if st.take_profit ≤ bar.high then
      ({ st with position := 0 },
       { (defaultRow bar.time) with
         position := 0
         exit_price := some st.take_profit
         trade_result := some ((st.take_profit / st.entry_price - 1) * 100) })
    else if sig = -1 ∧ sigPrev = 1 then
      ({ st with position := 0 },
       { (defaultRow bar.time) with
         position := 0
         exit_price := some bar.close
         trade_result := some ((bar.close / st.entry_price - 1) * 100) })
    else (st, defaultRow bar.time)
  else if st.position = -1 then
    if st.stop_loss ≤ bar.high then
      ({ st with position := 0 },
       { (defaultRow bar.time) with
         position := 0
         exit_price := some st.stop_loss
         trade_result := some ((st.entry_price / st.stop_loss - 1) * 100) })
    else if bar.low ≤ st.take_profit then
      ({ st with position := 0 },
       { (defaultRow bar.time) with
         position := 0
         exit_price := some st.take_profit
         trade_result := some ((st.entry_price / st.take_profit - 1) * 100) })
    else if sig = 1 ∧ sigPrev = -1 then
      ({ st with position := 0 },
       { (defaultRow bar.time) with
         position := 0
         exit_price := some bar.close
         trade_result := some ((st.entry_price / bar.close - 1) * 100) })
    else (st, defaultRow bar.time)
  else (st, defaultRow bar.time)

/-- The entry checks of one loop iteration (strategy.py, lines 376-400):
only when flat after the exit checks; a bullish flip opens a long with
stop/take set from the risk-management percentages, a bearish flip opens
a short.  Entry writes do not touch the exit columns of the same bar. -/
def entryPhase (rm : RiskManagement) (bar : Bar) (sig sigPrev : ℤ)
    (st : SimState) (row : Row) : SimState × Row :=
  if st.position = 0 then
    if sig = 1 ∧ sigPrev = -1 then
      (⟨1, bar.close, bar.close * (1 - rm.stop_loss_percent / 100),
        bar.close * (1 + rm.take_profit_percent / 100)⟩,
       { row with
         position := 1
         entry_price := some bar.close
         stop_loss := some (bar.close * (1 - rm.stop_loss_percent / 100))
         take_profit := some (bar.close * (1 + rm.take_profit_percent / 100)) })
    else if sig = -1 ∧ sigPrev = 1 then
      (⟨-1, bar.close, bar.close * (1 + rm.stop_loss_percent / 100),
        bar.close * (1 - rm.take_profit_percent / 100)⟩,
       { row with
         position := -1
         entry_price := some bar.close
         stop_loss := some (bar.close * (1 + rm.stop_loss_percent / 100))
         take_profit := some (bar.close * (1 - rm.take_profit_percent / 100)) })
    else (st, row)
  else (st, row)

/-- One full loop iteration: exit checks first, then entry checks
(strategy.py, lines 334-400). -/
def simStep (rm : RiskManagement) (bar : Bar) (sig sigPrev : ℤ)
    (st : SimState) : SimState × Row :=
  let er := exitPhase bar sig sigPrev st
  entryPhase rm bar sig sigPrev er.1 er.2

/-- The simulation over all bars: the loop runs for
`i in range(ma_period + 1, len(df))`; earlier rows keep their defaults. -/
def simRows (rm : RiskManagement) (w : ℕ) (data : List Bar) : List Row :=
  ((List.range data.length).foldl (fun acc i =>
    if w + 1 ≤ i then
      let sr := simStep rm (data.getD i default)
        (signalAt w (data.map Bar.close) i)
        (signalAt w (data.map Bar.close) (i - 1)) acc.2
      (acc.1 ++ [sr.2], sr.1)
    else (acc.1 ++ [defaultRow (data.getD i default).time], acc.2))
    (([], initSimState) : List Row × SimState)).1

/-- The first moving-average period among the strategy's parameters
(strategy.py, lines 312-317): the first key starting with `SMA_` or
`EMA_` and ending with `_period`. -/
def findMaPeriod (params : Params) : Option ℕ :=
  (params.find? (fun kv =>
    (strStartsWith kv.1 "SMA_" || strStartsWith kv.1 "EMA_")
      && strEndsWith kv.1 "_period")).map (fun kv => kv.2)

/-- The rows the backtest works with: the simulation runs only when a
non-zero (truthy) moving-average period was found; otherwise every row
keeps its defaults and no trade is ever recorded. -/
def btRows (strategy : Strategy) (data : List Bar) : List Row :=
  match findMaPeriod strategy.parameters with
  | some w =>
    if w ≠ 0 then simRows strategy.risk_management w data
    else data.map (fun b => defaultRow b.time)
  | none => data.map (fun b => defaultRow b.time)

/-- One reported trade (strategy.py, lines 448-458). -/
structure Trade where
  entry_time : ℤ
  exit_time : ℤ
  position : String
  entry_price : Option ℚ
  exit_price : Option ℚ
  profit_loss : ℚ
  profit_loss_percent : ℚ
  deriving DecidableEq, Repr, Inhabited

/-- The backtest result record (strategy.py, lines 282-296); dates are
raw timestamps, `profit_factor = none` models `float('inf')`. -/
structure BacktestResult where
  strategy_name : String
  start_date : ℤ
  end_date : ℤ
  initial_capital : ℚ
  final_capital : ℚ
  total_trades : ℕ
  winning_trades : ℕ
  losing_trades : ℕ
  win_rate : ℚ
  profit_factor : Option ℚ
  max_drawdown : ℚ
  max_drawdown_percent : ℚ
  trades : List Trade
  deriving DecidableEq, Repr, Inhabited

/-- The initialized result record (strategy.py, lines 282-296). -/
def baseResult (strategy : Strategy) (data : List Bar) : BacktestResult :=
  { strategy_name := strategy.name
    start_date := (data.headI).time
    end_date := (data.getLastD default).time
    initial_capital := 10000
    final_capital := 10000
    total_trades := 0
    winning_trades := 0
    losing_trades := 0
    win_rate := 0
    profit_factor := some 0
    max_drawdown := 0
    max_drawdown_percent := 0
    trades := [] }

/-- The equity curve (strategy.py, lines 419-426): starting at the
initial capital, each trade's percent return is compounded against the
running equity. -/
def equityCurve (init : ℚ) (results : List ℚ) : List ℚ :=
  List.scanl (fun equity r => equity + equity * r / 100) init results

/-- One iteration of the drawdown loop (strategy.py, lines 428-441):
the state is `(peak, drawdown, drawdown_percent)`; the recorded percent
is the one measured at the bar where the **absolute** drawdown was
largest. -/
def ddStep (acc : ℚ × ℚ × ℚ) (v : ℚ) : ℚ × ℚ × ℚ :=
  let peak := if acc.1 < v then v else acc.1
  let cd := peak - v
  let cdp := cd / peak * 100
  if acc.2.1 < cd then (peak, cd, cdp) else (peak, acc.2.1, acc.2.2)

/-- The drawdown pair `(max_drawdown, max_drawdown_percent)` computed
from the equity curve, with `peak` seeded at the curve's first value. -/
def computeDrawdown (curve : List ℚ) : ℚ × ℚ :=
  (curve.foldl ddStep (curve.headI, 0, 0)).2

/-- One trade-list entry (strategy.py, lines 448-458): both times are the
exit bar's time (the source comments `# Simplified, should be the actual
exit time` on the exit and reuses the row index for the entry). -/
def rowToTrade (row : Row) : Trade :=
  { entry_time := row.time
    exit_time := row.time
    position := if row.position = 1 then "long" else "short"
    entry_price := row.entry_price
    exit_price := row.exit_price
    profit_loss := row.trade_result.getD 0
    profit_loss_percent := row.trade_result.getD 0 }

/-- The metrics block of `backtest_strategy` (strategy.py, lines
402-458): rows with a recorded `trade_result` are the trades; when there
is at least one, counts, win rate, profit factor, equity curve, drawdown,
final capital and the trade list are filled in. -/
def backtestMetrics (base : BacktestResult) (rows : List Row) : BacktestResult :=
  let trades := rows.filter (fun r => r.trade_result.isSome)
  if 0 < trades.length then
    let results := trades.map (fun r => r.trade_result.getD 0)
    let winning := (trades.filter (fun r => 0 < r.trade_result.getD 0)).length
    let losing := (trades.filter (fun r => r.trade_result.getD 0 ≤ 0)).length
    let total_profit := (results.filter (fun r => 0 < r)).sum
    let total_loss := |(results.filter (fun r => r ≤ 0)).sum|
    let curve := equityCurve base.initial_capital results
    { base with
      total_trades := trades.length
      winning_trades := winning
      losing_trades := losing
      win_rate := (winning : ℚ) / (trades.length : ℚ)
      profit_factor :=
        if 0 < total_loss then some (total_profit / total_loss) else none
      max_drawdown := (computeDrawdown curve).1
      max_drawdown_percent := (computeDrawdown curve).2
      final_capital := curve.getLastD base.initial_capital
      trades := trades.map rowToTrade }
  else base

/-- `backtest_strategy` (strategy.py, lines 261-460): fails on fewer than
10 bars; otherwise simulates the MA-crossover signal (driven by the first
`SMA_*_period`/`EMA_*_period` parameter, when truthy) and aggregates the
metrics. -/
def backtest_strategy (strategy : Strategy) (data : List Bar) :
    Except String BacktestResult :=
  if data.length < 10 then .error "Insufficient data for backtesting"
  else .ok (backtestMetrics (baseResult strategy data) (btRows strategy data))

/-- The per-point `(current_drawdown, current_drawdown_percent)` pairs of
the drawdown loop, tracking the running peak. -/
def ddPoints (peak : ℚ) : List ℚ → List (ℚ × ℚ)
  | [] => []
  | v :: rest =>
    ((if peak < v then v else peak) - v,
     ((if peak < v then v else peak) - v) / (if peak < v then v else peak) * 100)
      :: ddPoints (if peak < v then v else peak) rest

/-- The selection the drawdown loop applies to each point: keep the pair
with the larger absolute drawdown (strictly larger replaces). -/
def chooseBest (acc pr : ℚ × ℚ) : ℚ × ℚ :=
  if acc.1 < pr.1 then pr else acc

/-- Modelled from the spec: the largest peak-to-trough percent decline
observed along an equity curve (each point measured against the running
peak including that point). -/
def maxDrawdownPercentSpec (curve : List ℚ) : ℚ :=
  ((List.range curve.length).map (fun i =>
    (((curve.take (i + 1)).foldl max curve.headI) - curve.getD i 0)
      / ((curve.take (i + 1)).foldl max curve.headI) * 100)).foldl max 0

instance {ε α : Type} [DecidableEq ε] [DecidableEq α] : DecidableEq (Except ε α) :=
  fun a b =>
    match a, b with
    | .error e1, .error e2 =>
      if h : e1 = e2 then isTrue (h ▸ rfl) else isFalse (fun hh => h (Except.error.inj hh))
    | .error _, .ok _ => isFalse (fun hh => Except.noConfusion hh)
    | .ok _, .error _ => isFalse (fun hh => Except.noConfusion hh)
    | .ok a1, .ok a2 =>
      if h : a1 = a2 then isTrue (h ▸ rfl) else isFalse (fun hh => h (Except.ok.inj hh))

/-- Twelve concrete bars whose closes flip the 2-bar moving-average
signal several times: closes
`100, 90, 80, 70, 100, 50, 60, 120, 300, 240, 260, 156`. -/
def d0 : List Bar :=
  [⟨0, 100, 101, 99, 100, 1⟩, ⟨1, 90, 91, 89, 90, 1⟩, ⟨2, 80, 81, 79, 80, 1⟩,
   ⟨3, 70, 71, 69, 70, 1⟩, ⟨4, 100, 101, 99, 100, 1⟩, ⟨5, 50, 51, 49, 50, 1⟩,
   ⟨6, 60, 61, 59, 60, 1⟩, ⟨7, 120, 121, 119, 120, 1⟩, ⟨8, 300, 301, 299, 300, 1⟩,
   ⟨9, 240, 241, 239, 240, 1⟩, ⟨10, 260, 261, 259, 260, 1⟩, ⟨11, 156, 157, 155, 156, 1⟩]

/-- A strategy with moving-average period 2 and stop-loss/take-profit so
wide that every exit happens through a signal flip. -/
def s0 : Strategy :=
  { name := "S", entry_rules := [], exit_rules := [],
    risk_management := ⟨99, 1000, 5⟩, parameters := [("SMA_20_period", 2)] }

/-- The backtest result of `s0` over `d0` (five recorded trades with
percent returns `-50, -50/3, 300, -100/13, -40`), written out; the lemma
`backtest_s0_d0` below verifies it against `backtest_strategy`. -/
def r0 : BacktestResult :=
  { strategy_name := "S", start_date := 0, end_date := 11,
    initial_capital := 10000, final_capital := 120000/13,
    total_trades := 5, winning_trades := 1, losing_trades := 4,
    win_rate := 1/5, profit_factor := some (585/223),
    max_drawdown := 290000/39, max_drawdown_percent := 580/13,
    trades := [⟨5, 5, "short", some 50, some 50, -50, -50⟩,
               ⟨6, 6, "long", some 60, some 60, -50/3, -50/3⟩,
               ⟨9, 9, "short", some 240, some 240, 300, 300⟩,
               ⟨10, 10, "long", some 260, some 260, -100/13, -100/13⟩,
               ⟨11, 11, "short", some 156, some 156, -40, -40⟩] }

/-- A bar and state for the C3 witness: long at entry 100, stop 98, take
106, and a bar whose low touches 98. -/
def c3Bar : Bar := ⟨5, 99, 100, 97, 99, 1⟩

/-- The long state armed at entry 100 with a 2-percent stop. -/
def c3State : SimState := ⟨1, 100, 98, 106⟩

/-- A strategy whose only parameter is not a moving-average period. -/
def sNoMa : Strategy :=
  { name := "N", entry_rules := [], exit_rules := [],
    risk_management := ⟨2, 6, 5⟩, parameters := [("RSI_14_period", 14)] }

/-- `", ".join(f"k=v" …)`: the label appended to the strategy name for
one parameter combination. -/
def comboLabel (combo : Params) : String :=
  String.intercalate ", " (combo.map (fun kv => kv.1 ++ "=" ++ toString kv.2))

/-- Python `{**orig, **new}`: the original keys first (with overridden
values), then the new keys in their own order. -/
def mergeParams (orig new : Params) : Params :=
  orig.map (fun kv =>
    match new.lookup kv.1 with
    | some v => (kv.1, v)
    | none => kv)
  ++ new.filter (fun kv => !(orig.any (fun kv2 => kv2.1 == kv.1)))

/-- The strategy copy built for one combination (strategy.py, lines
522-529): parameters overlaid, name relabelled. -/
def applyCombo (strategy : Strategy) (combo : Params) : Strategy :=
  { strategy with
    parameters := mergeParams strategy.parameters combo
    name := strategy.name ++ " (" ++ comboLabel combo ++ ")" }

/-- `generate_combinations` (strategy.py, lines 510-519): the Cartesian
product of the candidate lists, first parameter varying slowest. -/
def generateCombinations : List (String × List ℕ) → List Params
  | [] => [[]]
  | (k, vs) :: rest =>
    (vs.map (fun v => (generateCombinations rest).map (fun c => (k, v) :: c))).flatten

/-- The running best of the optimization loop (strategy.py, lines
487-492 and 548-552). -/
structure OptBest where
  strategy : Strategy
  backtest_result : BacktestResult
  performance_score : ℚ
  deriving DecidableEq, Repr, Inhabited

/-- The success payload of `optimize_strategy`
(strategy.py, lines 561-567). -/
structure OptSuccess where
  optimized_strategy : Strategy
  backtest_result : BacktestResult
  performance_score : ℚ
  tested_combinations : ℕ
  deriving DecidableEq, Repr, Inhabited

/-- The performance score (strategy.py, lines 538-546):
`0.5 × profit_percent + 0.3 × win_rate_percent − 0.2 ×
max_drawdown_percent` (the float literals `0.5/0.3/0.2` are the exact
rationals `1/2`, `3/10`, `1/5`). -/
def performanceScore (r : BacktestResult) : ℚ :=
  (r.final_capital / r.initial_capital - 1) * 100 * (1 / 2)
    + r.win_rate * 100 * (3 / 10) - r.max_drawdown_percent * (1 / 5)

/-- One iteration of the optimization loop (strategy.py, lines 522-552):
backtest the combination, skip it unless it produced a trade, and replace
the best on a strictly larger score (the `-inf` initial best is the
`none` state, which any evaluated combination beats). -/
def optStep (strategy : Strategy) (data : List Bar) (best : Option OptBest)
    (combo : Params) : Option OptBest :=
  match backtest_strategy (applyCombo strategy combo) data with
  | .error _ => best
  | .ok br =>
    if 0 < br.total_trades then
      match best with
      | none => some ⟨applyCombo strategy combo, br, performanceScore br⟩
      | some b =>
        if b.performance_score < performanceScore br then
          some ⟨applyCombo strategy combo, br, performanceScore br⟩
        else best
    else best

/-- `optimize_strategy` (strategy.py, lines 462-567), instrumented with
the number of backtests the loop ran (second component): data and
parameter-range validation, the 100-combination cap checked on the full
Cartesian-product size **before** any backtest, then the exhaustive
search; failure when no combination produced a trade. -/
def optimize_strategy (strategy : Strategy) (data : List Bar)
    (param_ranges : List (String × List ℕ)) : Except String OptSuccess × ℕ :=
  if data.length < 10 then
    (.error "Insufficient data for optimization", 0)
  else if param_ranges.isEmpty then
    (.error "No parameters provided for optimization", 0)
  else if 100 < (param_ranges.map (fun kv => kv.2.length)).foldl (fun a b => a * b) 1 then
    (.error ("Too many parameter combinations ("
      ++ toString ((param_ranges.map (fun kv => kv.2.length)).foldl (fun a b => a * b) 1)
      ++ "). Maximum allowed is " ++ toString (100 : ℕ) ++ "."), 0)
  else
    match (generateCombinations param_ranges).foldl (optStep strategy data) none with
    | none => (.error "No valid parameter combinations found",
        (generateCombinations param_ranges).length)
    | some b =>
      (.ok { optimized_strategy := b.strategy
             backtest_result := b.backtest_result
             performance_score := b.performance_score
             tested_combinations :=
               (param_ranges.map (fun kv => kv.2.length)).foldl (fun a b => a * b) 1 },
       (generateCombinations param_ranges).length)

/-- One-combination ranges used for the C1 witness. -/
def w1Ranges : List (String × List ℕ) := [("SMA_20_period", [2])]

/-- Oversized ranges (101 combinations) for the C6 witness. -/
def capRanges : List (String × List ℕ) := [("SMA_20_period", List.range 101)]

/-- A `filterMap` over `List.range n` that keeps exactly the indices with
`p ≤ i + 1` is the map of the payload over the surviving indices
`p-1, p, …, n-1`. -/
theorem range_filterMap_window {α : Type} (n p : ℕ) (hp : 1 ≤ p) (f : ℕ → α) :
    (List.range n).filterMap (fun i => if p ≤ i + 1 then some (f i) else none)
      = (List.range (n + 1 - p)).map (fun j => f (j + (p - 1))) := by
  induction n with
  | zero => simp [show 1 - p = 0 by omega]
  | succ n ih =>
    rw [List.range_succ, List.filterMap_append, ih]
    by_cases h : p ≤ n + 1
    · have h1 : n + 1 + 1 - p = (n + 1 - p) + 1 := by omega
      rw [h1, List.range_succ, List.map_append]
      have h2 : (n + 1 - p) + (p - 1) = n := by omega
      simp [h, h2]
    · have h1 : n + 1 + 1 - p = 0 := by omega
      have h2 : n + 1 - p = 0 := by omega
      simp [h, h1, h2]

/-- Characterization of `calculate_sma` as a map over the surviving
indices (shared helper). -/
theorem calculate_sma_eq (data : List Bar) (p : ℕ) (hp : 1 ≤ p) :
    calculate_sma data p = (List.range (data.length + 1 - p)).map (fun j =>
      ⟨(data.getD (j + (p - 1)) default).time,
        (((data.map Bar.close).drop j).take p).sum / (p : ℚ)⟩) := by
  unfold calculate_sma
  rw [range_filterMap_window data.length p hp
    (fun i => (⟨(data.getD i default).time,
      windowSum p (data.map Bar.close) i / (p : ℚ)⟩ : TimeValue))]
  refine List.map_congr_left (fun j _ => ?_)
  have harith : j + (p - 1) + 1 - p = j := by omega
  simp [windowSum, harith]

/-- C7: for every OHLCV series and period `p ≥ 1`, `calculate_sma` outputs
exactly `max(0, len - p + 1)` points (the first `p - 1` bars are warm-up),
and the `j`-th output point carries the time of bar `j + p - 1` and the
arithmetic mean of `close` over the trailing `p`-bar window ending there. -/
theorem calculate_sma_length_values (data : List Bar) (p : ℕ) (hp : 1 ≤ p) :
    (calculate_sma data p).length = data.length + 1 - p ∧
    calculate_sma data p = (List.range (data.length + 1 - p)).map (fun j =>
      ⟨(data.getD (j + (p - 1)) default).time,
        (((data.map Bar.close).drop j).take p).sum / (p : ℚ)⟩) :=
  ⟨by rw [calculate_sma_eq data p hp]; simp, calculate_sma_eq data p hp⟩

/-- Witness for C7 at period 2 over three concrete bars. -/
theorem calculate_sma_length_values_witness :
    (1 ≤ 2 ∧ (calculate_sma smaBars 2).length = smaBars.length + 1 - 2) ∧
    calculate_sma smaBars 2 = (List.range (smaBars.length + 1 - 2)).map (fun j =>
      ⟨(smaBars.getD (j + (2 - 1)) default).time,
        (((smaBars.map Bar.close).drop j).take 2).sum / (2 : ℚ)⟩) :=
  ⟨⟨by decide, (calculate_sma_length_values smaBars 2 (by decide)).1⟩,
    (calculate_sma_length_values smaBars 2 (by decide)).2⟩

/-- C8 counterexample: at the two-bar series with closes `[0, 2]`,
period 2 and multiplier 2, the upper band is `1 + √2·2` (sample standard
deviation, `ddof = 1`) whereas `middle + 2 × population std` would be
`1 + 1·2 = 3`; the two differ, so the bands are **not** built from the
population standard deviation. -/
theorem bollinger_population_std_counterexample :
    ((calculate_bollinger_bands bbBars 2 2).upper.getD 0 ⟨0, 0⟩).value ≠
      ((calculate_bollinger_bands bbBars 2 2).middle.getD 0 ⟨0, 0⟩).value
        + populationStd [0, 2] * 2 := by
  have hup : ((calculate_bollinger_bands bbBars 2 2).upper.getD 0 ⟨0, 0⟩).value
      = (1 : ℝ) + Real.sqrt 2 * 2 := by
    simp [calculate_bollinger_bands, bbBars, List.range_succ, windowSum,
      rollingStd, sampleVariance]
    norm_num
  have hmid : ((calculate_bollinger_bands bbBars 2 2).middle.getD 0 ⟨0, 0⟩).value
      = (1 : ℝ) := by
    simp [calculate_bollinger_bands, bbBars, List.range_succ, windowSum]
    try norm_num
  have hpop : populationStd [0, 2] = 1 := by
    simp [populationStd]
    norm_num
  rw [hup, hmid, hpop]
  intro h
  have h2 : Real.sqrt 2 = 1 := by linarith
  have h3 : Real.sqrt 2 ^ 2 = 2 := Real.sq_sqrt (by norm_num)
  rw [h2] at h3
  norm_num at h3

/-- C8 amended: for every series, period `p ≥ 2` and multiplier, the
middle band is the SMA of `close` over the window and the upper/lower
bands are middle ± (sample standard deviation of the window, `ddof = 1`)
× multiplier; for `p = 1` (or `p = 0`) no rows are emitted at all because
the sample standard deviation of a single observation is `NaN`. -/
theorem bollinger_bands_sample_std (data : List Bar) (p : ℕ) (sd : ℝ)
    (hp : 2 ≤ p) :
    (calculate_bollinger_bands data p sd).middle
      = (calculate_sma data p).map (fun tv => ⟨tv.time, (tv.value : ℝ)⟩) ∧
    (calculate_bollinger_bands data p sd).upper
      = (List.range (data.length + 1 - p)).map (fun j =>
          ⟨(data.getD (j + (p - 1)) default).time,
            ((windowSum p (data.map Bar.close) (j + (p - 1)) / (p : ℚ) : ℚ) : ℝ)
              + Real.sqrt ((sampleVariance p (data.map Bar.close) (j + (p - 1)) : ℚ) : ℝ)
                * sd⟩) ∧
    (calculate_bollinger_bands data p sd).lower
      = (List.range (data.length + 1 - p)).map (fun j =>
          ⟨(data.getD (j + (p - 1)) default).time,
            ((windowSum p (data.map Bar.close) (j + (p - 1)) / (p : ℚ) : ℚ) : ℝ)
              - Real.sqrt ((sampleVariance p (data.map Bar.close) (j + (p - 1)) : ℚ) : ℝ)
                * sd⟩) := by
  have hp1 : 1 ≤ p := by omega
  have hcond : ∀ i : ℕ, (p ≤ i + 1 ∧ 2 ≤ p) ↔ (p ≤ i + 1) := fun i => by
    constructor
    · exact fun h => h.1
    · exact fun h => ⟨h, hp⟩
  refine ⟨?_, ?_, ?_⟩
  · show (List.range data.length).filterMap _ = _
    rw [calculate_sma_eq data p hp1, List.map_map]
    simp only [hcond]
    rw [range_filterMap_window data.length p hp1
      (fun i => (⟨(data.getD i default).time,
        ((windowSum p (data.map Bar.close) i / (p : ℚ) : ℚ) : ℝ)⟩ : TimeValueR))]
    refine List.map_congr_left (fun j _ => ?_)
    have harith : j + (p - 1) + 1 - p = j := by omega
    simp [windowSum, harith, Function.comp]
  · show (List.range data.length).filterMap _ = _
    simp only [hcond]
    rw [range_filterMap_window data.length p hp1
      (fun i => (⟨(data.getD i default).time,
        ((windowSum p (data.map Bar.close) i / (p : ℚ) : ℚ) : ℝ)
          + rollingStd p (data.map Bar.close) i * sd⟩ : TimeValueR))]
    refine List.map_congr_left (fun j _ => ?_)
    simp [rollingStd]
  · show (List.range data.length).filterMap _ = _
    simp only [hcond]
    rw [range_filterMap_window data.length p hp1
      (fun i => (⟨(data.getD i default).time,
        ((windowSum p (data.map Bar.close) i / (p : ℚ) : ℚ) : ℝ)
          - rollingStd p (data.map Bar.close) i * sd⟩ : TimeValueR))]
    refine List.map_congr_left (fun j _ => ?_)
    simp [rollingStd]

/-- Witness for the amended C8 at period 2 over the two concrete bars. -/
theorem bollinger_bands_sample_std_witness :
    2 ≤ 2 ∧
    (calculate_bollinger_bands bbBars 2 2).middle
      = (calculate_sma bbBars 2).map (fun tv => ⟨tv.time, (tv.value : ℝ)⟩) :=
  ⟨by decide, (bollinger_bands_sample_std bbBars 2 2 (by decide)).1⟩

/-- Looking a key up after replacing its value in place finds the new
value, provided the key occurs. -/
theorem lookup_map_replace (k : String) (v : ℕ) (l : List (String × ℕ))
    (h : l.any (fun kv => kv.1 == k) = true) :
    (l.map (fun kv => if kv.1 == k then (k, v) else kv)).lookup k = some v := by
  induction l with
  | nil => simp at h
  | cons kv rest ih =>
    rw [List.map_cons]
    by_cases hk : kv.1 = k
    · rw [if_pos (show (kv.1 == k) = true by simp [hk])]
      simp [List.lookup]
    · rw [if_neg (show ¬ (kv.1 == k) = true by simp [hk])]
      have h' : rest.any (fun kv => kv.1 == k) = true := by
        simpa [List.any_cons, hk] using h
      have hke : (k == kv.1) = false := by
        rw [beq_eq_false_iff_ne]
        exact fun hh => hk hh.symm
      simp only [List.lookup, hke]
      exact ih h'

/-- Lookup misses every list whose keys all differ from `k`. -/
theorem lookup_eq_none_of_not_any (k : String) (l : List (String × ℕ))
    (h : l.any (fun kv => kv.1 == k) = false) : l.lookup k = none := by
  induction l with
  | nil => rfl
  | cons kv rest ih =>
    rw [List.any_cons] at h
    have hk : (kv.1 == k) = false := by
      cases hkk : (kv.1 == k)
      · rfl
      · rw [hkk] at h; simp at h
    have hrest : rest.any (fun kv => kv.1 == k) = false := by
      cases hr : rest.any (fun kv => kv.1 == k)
      · rfl
      · rw [hr, hk] at h; simp at h
    have hk' : ¬ kv.1 = k := by simpa using hk
    have hke : (k == kv.1) = false := by
      rw [beq_eq_false_iff_ne]
      exact fun hh => hk' hh.symm
    simp only [List.lookup, hke]
    exact ih hrest

/-- Lookup skips over a prefix in which the key is absent. -/
theorem lookup_append_of_none (k : String) (l l2 : List (String × ℕ))
    (h : l.lookup k = none) : (l ++ l2).lookup k = l2.lookup k := by
  induction l with
  | nil => rfl
  | cons kv rest ih =>
    rw [List.cons_append]
    simp only [List.lookup] at h ⊢
    cases hke : (k == kv.1)
    · rw [hke] at h
      simp only at h
      simp only [hke]
      exact ih h
    · rw [hke] at h
      simp at h

/-- After a dict write `d["period"] = v`, reading `"period"` back returns
`v` whatever default is supplied. -/
theorem getParam_insertParam (k : String) (v d : ℕ) (ps : Params) :
    getParam (insertParam k v ps) k d = v := by
  unfold getParam insertParam
  by_cases hany : ps.any (fun kv => kv.1 == k) = true
  · rw [if_pos hany, lookup_map_replace k v ps hany]
    rfl
  · have hfalse : ps.any (fun kv => kv.1 == k) = false := by
      cases hh : ps.any (fun kv => kv.1 == k)
      · rfl
      · exact absurd hh hany
    rw [if_neg (show ¬ (ps.any (fun kv => kv.1 == k)) = true by simp [hfalse])]
    rw [lookup_append_of_none k ps [(k, v)] (lookup_eq_none_of_not_any k ps hfalse)]
    simp [List.lookup]

/-- C10 counterexample: calling `calculate_indicator` with indicator type
`"SMA_50"` and a caller-supplied **empty** params dict does not mutate the
caller's dict: `params = params or dict()` replaces the falsy empty dict
by a fresh one, so the caller's dict still lacks the `"period"` key after
the call — contrary to the claim that the embedded period is written into
the caller's dict for every caller-supplied dict. -/
theorem calculate_indicator_empty_params_counterexample :
    (calculate_indicator smaBars "SMA_50" (some ([] : Params))).2 = ([] : Params) ∧
    (calculate_indicator smaBars "SMA_50" (some ([] : Params))).2
      ≠ insertParam "period" 50 ([] : Params) := by
  refine ⟨rfl, ?_⟩
  intro h
  have h2 : ([] : Params) = insertParam "period" 50 ([] : Params) := h
  rw [show insertParam "period" 50 ([] : Params) = [("period", 50)] from rfl] at h2
  exact absurd h2 (by decide)

/-- C10 amended: when `calculate_indicator` is called with an indicator
type that parses to an embedded period `n` (a `NAME_N` string with a
digit sequence `N`) and a **non-empty** caller-supplied params dict, the
caller's dict is mutated in place: after the call it holds
`"period" ↦ n` whatever period the caller passed, and an `SMA` base type
dispatches to `calculate_sma` with the embedded period (which therefore
takes precedence).  An empty caller-supplied dict is replaced by a fresh
internal dict and left unmutated (see the counterexample), though the
embedded period still takes precedence in the computation. -/
theorem calculate_indicator_period_override (data : List Bar)
    (indicator_type : String) (ps : Params) (n : ℕ)
    (hparse : (parseIndicatorType indicator_type).2 = some n)
    (hne : ps ≠ ([] : Params)) :
    (calculate_indicator data indicator_type (some ps)).2
        = insertParam "period" n ps ∧
    getParam (calculate_indicator data indicator_type (some ps)).2 "period" 20 = n ∧
    ((parseIndicatorType indicator_type).1 = "SMA" →
      (calculate_indicator data indicator_type (some ps)).1
        = .ok (.series (calculate_sma data n))) := by
  have hempty : ps.isEmpty = false := by
    cases hps : ps with
    | nil => exact absurd hps hne
    | cons a l => rfl
  have h2 : (calculate_indicator data indicator_type (some ps)).2
      = insertParam "period" n ps := by
    simp only [calculate_indicator, Option.getD_some, hparse, hempty,
      Bool.false_eq_true, if_false]
  refine ⟨h2, ?_, ?_⟩
  · rw [h2]
    exact getParam_insertParam "period" n 20 ps
  · intro hbase
    simp only [calculate_indicator, Option.getD_some, hparse, hbase, if_true,
      getParam_insertParam "period" n 20 ps]

/-- Witness for the amended C10: `"SMA_50"` with caller dict
`[("period", 10)]` is mutated to `[("period", 50)]`. -/
theorem calculate_indicator_period_override_witness :
    ((parseIndicatorType "SMA_50").2 = some 50 ∧
      ([("period", 10)] : Params) ≠ ([] : Params)) ∧
    (calculate_indicator smaBars "SMA_50" (some ([("period", 10)] : Params))).2
      = insertParam "period" 50 ([("period", 10)] : Params) :=
  ⟨⟨by decide, by decide⟩,
    (calculate_indicator_period_override smaBars "SMA_50"
      ([("period", 10)] : Params) 50 (by decide) (by decide)).1⟩

/-- Binding an error propagates the error (`Except` monad). -/
theorem except_bind_error {ε α β : Type} (e : ε) (f : α → Except ε β) :
    ((Except.error e : Except ε α) >>= f) = Except.error e := rfl

/-- Binding a success applies the continuation (`Except` monad). -/
theorem except_bind_ok {ε α β : Type} (a : α) (f : α → Except ε β) :
    ((Except.ok a : Except ε α) >>= f) = f a := rfl

/-- `processIndicator` never touches the risk-management block. -/
theorem processIndicator_rm (s : Strategy) (name : String) (s' : Strategy)
    (h : processIndicator s name = .ok s') :
    s'.risk_management = s.risk_management := by
  unfold processIndicator at h
  by_cases h1 : (strStartsWith name "SMA" || strStartsWith name "EMA") = true
  · rw [if_pos h1] at h
    cases hp : indicatorPeriod name 20 with
    | error e => rw [hp, except_bind_error] at h; cases h
    | ok n =>
      rw [hp, except_bind_ok] at h
      cases h
      rfl
  · rw [if_neg h1] at h
    by_cases h2 : (strStartsWith name "RSI") = true
    · rw [if_pos h2] at h
      cases hp : indicatorPeriod name 14 with
      | error e => rw [hp, except_bind_error] at h; cases h
      | ok n =>
        rw [hp, except_bind_ok] at h
        cases h
        rfl
    · rw [if_neg h2] at h
      by_cases h3 : (strStartsWith name "MACD") = true
      · rw [if_pos h3] at h
        cases h
        rfl
      · rw [if_neg h3] at h
        cases h
        rfl

/-- Folding `processIndicator` over the indicator names never touches the
risk-management block. -/
theorem foldlM_processIndicator_rm (names : List String) (s s' : Strategy)
    (h : names.foldlM processIndicator s = .ok s') :
    s'.risk_management = s.risk_management := by
  induction names generalizing s with
  | nil =>
    rw [List.foldlM_nil] at h
    cases h
    rfl
  | cons a l ih =>
    rw [List.foldlM_cons] at h
    cases hp : processIndicator s a with
    | error e => rw [hp, except_bind_error] at h; cases h
    | ok s1 =>
      rw [hp, except_bind_ok] at h
      rw [ih s1 h, processIndicator_rm s a s1 hp]

/-- `addPatternRules` never touches the risk-management block. -/
theorem addPatternRules_rm (patterns : List PatternMatch) (s : Strategy) :
    (addPatternRules patterns s).risk_management = s.risk_management := by
  unfold addPatternRules
  split
  · split
    · rfl
    · split
      · rfl
      · rfl
  · rfl

/-- The fallback phase always yields non-empty entry and exit rules and
keeps the risk-management block. -/
theorem finalizeRules_wf (s1 : Strategy) :
    (finalizeRules s1).entry_rules ≠ [] ∧ (finalizeRules s1).exit_rules ≠ [] ∧
      (finalizeRules s1).risk_management = s1.risk_management := by
  unfold finalizeRules
  by_cases he : s1.entry_rules.isEmpty
  · simp only [he, if_true]
    by_cases hx : s1.exit_rules.isEmpty
    · simp only [hx, if_true]
      exact ⟨by simp [fallbackEntryRules], by simp [fallbackExitRules], by trivial⟩
    · simp only [hx, Bool.false_eq_true, if_false]
      refine ⟨by simp [fallbackEntryRules], ?_, by trivial⟩
      intro hnil
      exact hx (by simp [hnil])
  · simp only [he, Bool.false_eq_true, if_false]
    by_cases hx : s1.exit_rules.isEmpty
    · simp only [hx, if_true]
      refine ⟨?_, by simp [fallbackExitRules], by trivial⟩
      intro hnil
      exact he (by simp [hnil])
    · simp only [hx, Bool.false_eq_true, if_false]
      refine ⟨?_, ?_, by trivial⟩
      · intro hnil
        exact he (by simp [hnil])
      · intro hnil
        exact hx (by simp [hnil])

/-- C5: every `Strategy` that `create_strategy` returns (for any patterns
and indicator mapping, both possibly empty) has non-empty entry rules,
non-empty exit rules, and the complete default risk-management block
(`stop_loss_percent = 2`, `take_profit_percent = 6`,
`max_position_size_percent = 5`). -/
theorem create_strategy_wellformed (patterns : List PatternMatch)
    (indicators : List String) (s : Strategy)
    (h : create_strategy patterns indicators = .ok s) :
    s.entry_rules ≠ [] ∧ s.exit_rules ≠ [] ∧
      s.risk_management = ⟨2, 6, 5⟩ := by
  unfold create_strategy at h
  cases hf : indicators.foldlM processIndicator
      (addPatternRules patterns initialStrategy) with
  | error e => rw [hf] at h; cases h
  | ok s1 =>
    rw [hf] at h
    have hs : s = finalizeRules s1 := by
      have : Except.map finalizeRules (Except.ok s1)
          = (Except.ok (finalizeRules s1) : Except String Strategy) := rfl
      rw [this] at h
      cases h
      rfl
    have hrm1 : s1.risk_management = ⟨2, 6, 5⟩ := by
      rw [foldlM_processIndicator_rm indicators
        (addPatternRules patterns initialStrategy) s1 hf, addPatternRules_rm]
      rfl
    rcases finalizeRules_wf s1 with ⟨w1, w2, w3⟩
    exact ⟨hs ▸ w1, hs ▸ w2, by rw [hs, w3, hrm1]⟩

/-- Witness for C5 at the all-empty input pair. -/
theorem create_strategy_wellformed_witness :
    create_strategy [] [] = .ok emptyInputStrategy ∧
    (emptyInputStrategy.entry_rules ≠ [] ∧ emptyInputStrategy.exit_rules ≠ [] ∧
      emptyInputStrategy.risk_management = ⟨2, 6, 5⟩) :=
  ⟨rfl, create_strategy_wellformed [] [] emptyInputStrategy rfl⟩

/-- The drawdown fold equals the best-of fold over the per-point pairs. -/
theorem ddFoldl_eq_chooseBest (l : List ℚ) :
    ∀ (peak dd ddp : ℚ),
      (l.foldl ddStep (peak, dd, ddp)).2
        = (ddPoints peak l).foldl chooseBest (dd, ddp) := by
  induction l with
  | nil => intro peak dd ddp; rfl
  | cons v rest ih =>
    intro peak dd ddp
    rw [List.foldl_cons, ddPoints, List.foldl_cons]
    show (rest.foldl ddStep (ddStep (peak, dd, ddp) v)).2 = _
    unfold ddStep chooseBest
    by_cases hlt : dd < (if peak < v then v else peak) - v
    · simp only [hlt, if_true]
      exact ih _ _ _
    · simp only [hlt, if_false]
      exact ih _ _ _

/-- The best-of fold returns its seed or an element of the list. -/
theorem chooseBest_mem (l : List (ℚ × ℚ)) :
    ∀ acc : ℚ × ℚ, l.foldl chooseBest acc = acc ∨ l.foldl chooseBest acc ∈ l := by
  induction l with
  | nil => intro acc; exact Or.inl rfl
  | cons pr rest ih =>
    intro acc
    rw [List.foldl_cons]
    rcases ih (chooseBest acc pr) with h | h
    · rw [h]
      unfold chooseBest
      by_cases hlt : acc.1 < pr.1
      · simp only [hlt, if_true]
        exact Or.inr (List.mem_cons_self pr rest)
      · simp only [hlt, if_false]
        exact Or.inl trivial
    · exact Or.inr (List.mem_cons_of_mem pr h)

/-- The best-of fold dominates its seed and every element. -/
theorem chooseBest_bound (l : List (ℚ × ℚ)) :
    ∀ acc : ℚ × ℚ, acc.1 ≤ (l.foldl chooseBest acc).1 ∧
      ∀ pr ∈ l, pr.1 ≤ (l.foldl chooseBest acc).1 := by
  induction l with
  | nil => intro acc; exact ⟨le_refl _, fun pr hpr => absurd hpr (List.not_mem_nil pr)⟩
  | cons q rest ih =>
    intro acc
    rw [List.foldl_cons]
    rcases ih (chooseBest acc q) with ⟨h1, h2⟩
    have hacc : acc.1 ≤ (chooseBest acc q).1 := by
      unfold chooseBest
      by_cases hlt : acc.1 < q.1
      · simp only [hlt, if_true]
        exact le_of_lt hlt
      · simp only [hlt, if_false]
        exact le_refl _
    have hq : q.1 ≤ (chooseBest acc q).1 := by
      unfold chooseBest
      by_cases hlt : acc.1 < q.1
      · simp only [hlt, if_true]
        exact le_refl _
      · simp only [hlt, if_false]
        exact le_of_not_lt hlt
    refine ⟨le_trans hacc h1, fun pr hpr => ?_⟩
    rcases List.mem_cons.mp hpr with h | h
    · rw [h]; exact le_trans hq h1
    · exact h2 pr h

/-- The rows the simulation writes for `s0` over `d0`: a long opened at
bar 4, and alternating exits/re-entries at bars 5, 6, 9, 10 and 11. -/
theorem btRows_s0_d0 : btRows s0 d0 =
    [defaultRow 0, defaultRow 1, defaultRow 2, defaultRow 3,
     ⟨4, 1, some 100, none, some 1, some 1100, none⟩,
     ⟨5, -1, some 50, some 50, some (199/2), some (-450), some (-50)⟩,
     ⟨6, 1, some 60, some 60, some (3/5), some 660, some (-50/3)⟩,
     defaultRow 7, defaultRow 8,
     ⟨9, -1, some 240, some 240, some (2388/5), some (-2160), some 300⟩,
     ⟨10, 1, some 260, some 260, some (13/5), some 2860, some (-100/13)⟩,
     ⟨11, -1, some 156, some 156, some (7761/25), some (-1404), some (-40)⟩] := by
  have hfind : findMaPeriod s0.parameters = some 2 := by decide
  unfold btRows
  rw [hfind]
  norm_num [simRows, simStep, exitPhase, entryPhase, signalAt, maAt, windowSum,
    s0, d0, List.range_succ, defaultRow, initSimState]

/-- The concrete backtest evaluates to `r0`. -/
theorem backtest_s0_d0 : backtest_strategy s0 d0 = .ok r0 := by
  unfold backtest_strategy
  rw [if_neg (by norm_num [d0])]
  rw [btRows_s0_d0]
  norm_num [backtestMetrics, baseResult, equityCurve, computeDrawdown, ddStep,
    rowToTrade, r0, defaultRow, s0, d0, List.headI, List.scanl, List.getLastD]
  rw [abs_of_nonneg (show (0:ℚ) ≤ 4460/39 by norm_num)]
  norm_num

/-- When at least one trade was recorded, the metrics block fills the
trade list, the drawdown pair and the trade count from the filtered rows. -/
theorem backtestMetrics_pos (base : BacktestResult) (rows : List Row)
    (h : 0 < (rows.filter (fun r => r.trade_result.isSome)).length) :
    (backtestMetrics base rows).trades
        = (rows.filter (fun r => r.trade_result.isSome)).map rowToTrade ∧
    (backtestMetrics base rows).max_drawdown
        = (computeDrawdown (equityCurve base.initial_capital
            ((rows.filter (fun r => r.trade_result.isSome)).map
              (fun r => r.trade_result.getD 0)))).1 ∧
    (backtestMetrics base rows).max_drawdown_percent
        = (computeDrawdown (equityCurve base.initial_capital
            ((rows.filter (fun r => r.trade_result.isSome)).map
              (fun r => r.trade_result.getD 0)))).2 ∧
    (backtestMetrics base rows).total_trades
        = (rows.filter (fun r => r.trade_result.isSome)).length := by
  simp only [backtestMetrics]
  rw [if_pos h]
  exact ⟨rfl, rfl, rfl, rfl⟩

/-- Without any recorded trade, the metrics block returns the initialized
result unchanged. -/
theorem backtestMetrics_not_pos (base : BacktestResult) (rows : List Row)
    (h : ¬ 0 < (rows.filter (fun r => r.trade_result.isSome)).length) :
    backtestMetrics base rows = base := by
  simp only [backtestMetrics]
  rw [if_neg h]

/-- The entry checks never write the exit columns of the bar. -/
theorem entryPhase_preserves_exit (rm : RiskManagement) (bar : Bar)
    (sig sigPrev : ℤ) (st : SimState) (row : Row) :
    (entryPhase rm bar sig sigPrev st row).2.exit_price = row.exit_price ∧
    (entryPhase rm bar sig sigPrev st row).2.trade_result = row.trade_result := by
  unfold entryPhase
  by_cases h0 : st.position = 0
  · rw [if_pos h0]
    by_cases h1 : sig = 1 ∧ sigPrev = -1
    · rw [if_pos h1]
      exact ⟨rfl, rfl⟩
    · rw [if_neg h1]
      by_cases h2 : sig = -1 ∧ sigPrev = 1
      · rw [if_pos h2]
        exact ⟨rfl, rfl⟩
      · rw [if_neg h2]
        exact ⟨rfl, rfl⟩
  · rw [if_neg h0]
    exact ⟨rfl, rfl⟩

/-- C3: the exit checks for an open long run in the order stop-loss
(`low ≤ stop`, exit at the stop), then take-profit (`high ≥ take`, exit
at the target), then bearish signal flip (exit at the close); if none
triggers, bar processing leaves the position untouched.  Entering long at
close 100 with `stop_loss_percent = 2` arms the stop at exactly 98, so a
long entered at 100 exits by stop-loss at the first later bar whose
`low ≤ 98` if neither the take-profit nor a flip fired before. -/
theorem backtest_long_exit_priority (rm : RiskManagement) (bar : Bar)
    (sig sigPrev : ℤ) (st : SimState) :
    (st.position = 1 →
      ((bar.low ≤ st.stop_loss →
        (simStep rm bar sig sigPrev st).2.exit_price = some st.stop_loss ∧
        (simStep rm bar sig sigPrev st).2.trade_result
          = some ((st.stop_loss / st.entry_price - 1) * 100)) ∧
      (¬ bar.low ≤ st.stop_loss → st.take_profit ≤ bar.high →
        (simStep rm bar sig sigPrev st).2.exit_price = some st.take_profit ∧
        (simStep rm bar sig sigPrev st).2.trade_result
          = some ((st.take_profit / st.entry_price - 1) * 100)) ∧
      (¬ bar.low ≤ st.stop_loss → ¬ st.take_profit ≤ bar.high →
        sig = -1 ∧ sigPrev = 1 →
        (simStep rm bar sig sigPrev st).2.exit_price = some bar.close ∧
        (simStep rm bar sig sigPrev st).2.trade_result
          = some ((bar.close / st.entry_price - 1) * 100)) ∧
      (¬ bar.low ≤ st.stop_loss → ¬ st.take_profit ≤ bar.high →
        ¬ (sig = -1 ∧ sigPrev = 1) →
        simStep rm bar sig sigPrev st = (st, defaultRow bar.time)))) ∧
    (st.position = 0 → sig = 1 ∧ sigPrev = -1 → bar.close = 100 →
      rm.stop_loss_percent = 2 →
      (simStep rm bar sig sigPrev st).1.position = 1 ∧
      (simStep rm bar sig sigPrev st).1.entry_price = 100 ∧
      (simStep rm bar sig sigPrev st).1.stop_loss = 98) := by
  constructor
  · intro hpos
    refine ⟨?_, ?_, ?_, ?_⟩
    · intro hstop
      have hu : simStep rm bar sig sigPrev st
          = entryPhase rm bar sig sigPrev ({ st with position := 0 })
            { (defaultRow bar.time) with
              position := 0
              exit_price := some st.stop_loss
              trade_result := some ((st.stop_loss / st.entry_price - 1) * 100) } := by
        unfold simStep exitPhase
        rw [if_pos hpos, if_pos hstop]
      rw [hu]
      exact entryPhase_preserves_exit rm bar sig sigPrev _ _
    · intro hstop htake
      have hu : simStep rm bar sig sigPrev st
          = entryPhase rm bar sig sigPrev ({ st with position := 0 })
            { (defaultRow bar.time) with
              position := 0
              exit_price := some st.take_profit
              trade_result := some ((st.take_profit / st.entry_price - 1) * 100) } := by
        unfold simStep exitPhase
        rw [if_pos hpos, if_neg hstop, if_pos htake]
      rw [hu]
      exact entryPhase_preserves_exit rm bar sig sigPrev _ _
    · intro hstop htake hflip
      have hu : simStep rm bar sig sigPrev st
          = entryPhase rm bar sig sigPrev ({ st with position := 0 })
            { (defaultRow bar.time) with
              position := 0
              exit_price := some bar.close
              trade_result := some ((bar.close / st.entry_price - 1) * 100) } := by
        unfold simStep exitPhase
        rw [if_pos hpos, if_neg hstop, if_neg htake, if_pos hflip]
      rw [hu]
      exact entryPhase_preserves_exit rm bar sig sigPrev _ _
    · intro hstop htake hflip
      have hu : simStep rm bar sig sigPrev st
          = entryPhase rm bar sig sigPrev st (defaultRow bar.time) := by
        unfold simStep exitPhase
        rw [if_pos hpos, if_neg hstop, if_neg htake, if_neg hflip]
      rw [hu]
      unfold entryPhase
      rw [if_neg (show ¬ st.position = 0 by rw [hpos]; decide)]
  · intro hflat hflip hclose hsl
    have hu : simStep rm bar sig sigPrev st
        = entryPhase rm bar sig sigPrev st (defaultRow bar.time) := by
      unfold simStep exitPhase
      rw [if_neg (show ¬ st.position = 1 by rw [hflat]; decide),
        if_neg (show ¬ st.position = -1 by rw [hflat]; decide)]
    rw [hu]
    unfold entryPhase
    rw [if_pos hflat, if_pos hflip]
    refine ⟨rfl, ?_, ?_⟩
    · rw [hclose]
    · show bar.close * (1 - rm.stop_loss_percent / 100) = 98
      rw [hclose, hsl]
      norm_num

/-- Witness for C3: at the concrete long state and bar, the stop-loss
branch fires with exit price 98 and trade result -2 percent; and a flat
state entering at close 100 with a 2-percent stop arms the stop at 98. -/
theorem backtest_long_exit_priority_witness :
    (c3State.position = 1 ∧ c3Bar.low ≤ c3State.stop_loss) ∧
    ((simStep ⟨2, 6, 5⟩ c3Bar 0 0 c3State).2.exit_price = some c3State.stop_loss ∧
      (simStep ⟨2, 6, 5⟩ c3Bar 0 0 c3State).2.trade_result
        = some ((c3State.stop_loss / c3State.entry_price - 1) * 100)) :=
  ⟨⟨by decide, by decide⟩,
    ((backtest_long_exit_priority ⟨2, 6, 5⟩ c3Bar 0 0 c3State).1 (by decide)).1
      (by decide)⟩

/-- C4: a strategy without any parameter key starting with `SMA_` or
`EMA_` and ending with `_period`, backtested over at least 10 bars,
yields the initialized result: zero trades, empty trade list, and final
capital equal to the initial capital. -/
theorem backtest_no_ma_param (strategy : Strategy) (data : List Bar)
    (hlen : 10 ≤ data.length)
    (hno : ∀ kv ∈ strategy.parameters,
      ((strStartsWith kv.1 "SMA_" || strStartsWith kv.1 "EMA_")
        && strEndsWith kv.1 "_period") = false) :
    backtest_strategy strategy data = .ok (baseResult strategy data) ∧
    (baseResult strategy data).total_trades = 0 ∧
    (baseResult strategy data).trades = [] ∧
    (baseResult strategy data).final_capital
      = (baseResult strategy data).initial_capital := by
  have hfind : findMaPeriod strategy.parameters = none := by
    unfold findMaPeriod
    rw [List.find?_eq_none.mpr (fun kv hkv => by simp [hno kv hkv])]
    rfl
  have hrows : btRows strategy data = data.map (fun b => defaultRow b.time) := by
    unfold btRows
    rw [hfind]
  have hnone : ∀ r ∈ btRows strategy data, r.trade_result = none := by
    rw [hrows]
    intro r hr
    rcases List.mem_map.mp hr with ⟨b, _, hb⟩
    rw [← hb]
    rfl
  have hmet : backtestMetrics (baseResult strategy data) (btRows strategy data)
      = baseResult strategy data := by
    apply backtestMetrics_not_pos
    have hf : (btRows strategy data).filter (fun r => r.trade_result.isSome) = [] := by
      rw [List.filter_eq_nil_iff]
      intro r hr
      simp [hnone r hr]
    rw [hf]
    simp
  refine ⟨?_, rfl, rfl, rfl⟩
  unfold backtest_strategy
  rw [if_neg (by omega), hmet]

/-- Witness for C4: the RSI-only strategy over the 12 concrete bars. -/
theorem backtest_no_ma_param_witness :
    (10 ≤ d0.length ∧
      ∀ kv ∈ sNoMa.parameters,
        ((strStartsWith kv.1 "SMA_" || strStartsWith kv.1 "EMA_")
          && strEndsWith kv.1 "_period") = false) ∧
    backtest_strategy sNoMa d0 = .ok (baseResult sNoMa d0) ∧
    (baseResult sNoMa d0).total_trades = 0 ∧
    (baseResult sNoMa d0).trades = [] ∧
    (baseResult sNoMa d0).final_capital = (baseResult sNoMa d0).initial_capital :=
  ⟨⟨by decide, by decide⟩,
    backtest_no_ma_param sNoMa d0 (by decide) (by decide)⟩

/-- C9: every reported trade carries identical entry and exit timestamps,
both equal to the time of the bar on which the exit was recorded (a row
with a filled `trade_result`). -/
theorem backtest_trade_times (strategy : Strategy) (data : List Bar)
    (r : BacktestResult) (h : backtest_strategy strategy data = .ok r) :
    ∀ t ∈ r.trades, t.entry_time = t.exit_time ∧
      ∃ row ∈ btRows strategy data,
        row.trade_result.isSome ∧ row.time = t.exit_time := by
  unfold backtest_strategy at h
  by_cases hlen : data.length < 10
  · rw [if_pos hlen] at h
    cases h
  · rw [if_neg hlen] at h
    have hr : r = backtestMetrics (baseResult strategy data) (btRows strategy data) :=
      (Except.ok.inj h).symm
    by_cases hpos : 0 < ((btRows strategy data).filter
        (fun row => row.trade_result.isSome)).length
    · have htr := (backtestMetrics_pos (baseResult strategy data)
        (btRows strategy data) hpos).1
      intro t ht
      rw [hr, htr] at ht
      rcases List.mem_map.mp ht with ⟨row, hrow, hteq⟩
      rcases List.mem_filter.mp hrow with ⟨hmem, hsome⟩
      refine ⟨by rw [← hteq]; rfl, row, hmem, by simpa using hsome, by rw [← hteq]; rfl⟩
    · have hbase := backtestMetrics_not_pos (baseResult strategy data)
        (btRows strategy data) hpos
      intro t ht
      rw [hr, hbase] at ht
      exact absurd ht (List.not_mem_nil t)

/-- Witness for C9: the first trade of the concrete backtest `r0`. -/
theorem backtest_trade_times_witness :
    (backtest_strategy s0 d0 = .ok r0 ∧ r0.trades.getD 0 default ∈ r0.trades) ∧
    ((r0.trades.getD 0 default).entry_time = (r0.trades.getD 0 default).exit_time ∧
      ∃ row ∈ btRows s0 d0,
        row.trade_result.isSome ∧ row.time = (r0.trades.getD 0 default).exit_time) :=
  ⟨⟨backtest_s0_d0, by simp [r0, List.getD]⟩,
    backtest_trade_times s0 d0 r0 backtest_s0_d0 (r0.trades.getD 0 default)
      (by simp [r0, List.getD])⟩

/-- The equity curve always starts at the initial capital. -/
theorem equityCurve_head (init : ℚ) (xs : List ℚ) :
    ∃ rest, equityCurve init xs = init :: rest := by
  cases xs with
  | nil => exact ⟨[], rfl⟩
  | cons a l => exact ⟨_, rfl⟩

/-- C2 amended: for every backtest run with at least one trade, the
`(max_drawdown, max_drawdown_percent)` pair is one of the per-point
`(absolute decline, percent decline)` pairs along the equity curve built
by compounding the trades' percent returns from the initial capital
10000, and its absolute component dominates every point: the recorded
percent is the percent measured at the point where the **absolute**
peak-to-trough decline is maximal — not necessarily the largest percent
decline (see the counterexample). -/
theorem backtest_drawdown_at_abs_argmax (strategy : Strategy) (data : List Bar)
    (r : BacktestResult) (h : backtest_strategy strategy data = .ok r)
    (htr : 0 < r.total_trades) :
    ∃ pr ∈ ddPoints
        (equityCurve 10000 (r.trades.map Trade.profit_loss_percent)).headI
        (equityCurve 10000 (r.trades.map Trade.profit_loss_percent)),
      r.max_drawdown = pr.1 ∧ r.max_drawdown_percent = pr.2 ∧
      ∀ q ∈ ddPoints
          (equityCurve 10000 (r.trades.map Trade.profit_loss_percent)).headI
          (equityCurve 10000 (r.trades.map Trade.profit_loss_percent)),
        q.1 ≤ r.max_drawdown := by
  unfold backtest_strategy at h
  by_cases hlen : data.length < 10
  · rw [if_pos hlen] at h
    cases h
  · rw [if_neg hlen] at h
    have hr : r = backtestMetrics (baseResult strategy data) (btRows strategy data) :=
      (Except.ok.inj h).symm
    by_cases hpos : 0 < ((btRows strategy data).filter
        (fun row => row.trade_result.isSome)).length
    · rcases backtestMetrics_pos (baseResult strategy data) (btRows strategy data) hpos
        with ⟨htrades, hdd, hddp, _⟩
      have hres : r.trades.map Trade.profit_loss_percent
          = ((btRows strategy data).filter (fun row => row.trade_result.isSome)).map
              (fun row => row.trade_result.getD 0) := by
        rw [hr, htrades, List.map_map]
        rfl
      have hdd1 : r.max_drawdown
          = (computeDrawdown (equityCurve 10000
              (r.trades.map Trade.profit_loss_percent))).1 := by
        rw [hres, hr, hdd]
        rfl
      have hddp1 : r.max_drawdown_percent
          = (computeDrawdown (equityCurve 10000
              (r.trades.map Trade.profit_loss_percent))).2 := by
        rw [hres, hr, hddp]
        rfl
      obtain ⟨rest, hrest⟩ := equityCurve_head 10000
        (r.trades.map Trade.profit_loss_percent)
      have hhead : (equityCurve 10000 (r.trades.map Trade.profit_loss_percent)).headI
          = 10000 := by
        rw [hrest]
        rfl
      have hfold : computeDrawdown (equityCurve 10000
            (r.trades.map Trade.profit_loss_percent))
          = (ddPoints (equityCurve 10000 (r.trades.map Trade.profit_loss_percent)).headI
              (equityCurve 10000 (r.trades.map Trade.profit_loss_percent))).foldl
              chooseBest (0, 0) := by
        unfold computeDrawdown
        exact ddFoldl_eq_chooseBest _ _ _ _
      rcases chooseBest_mem (ddPoints
          (equityCurve 10000 (r.trades.map Trade.profit_loss_percent)).headI
          (equityCurve 10000 (r.trades.map Trade.profit_loss_percent))) (0, 0)
        with hacc | hmem
      · refine ⟨(0, 0), ?_, ?_, ?_, ?_⟩
        · rw [hhead, hrest, ddPoints]
          have h0 : (if (10000 : ℚ) < 10000 then (10000 : ℚ) else 10000) = 10000 :=
            by norm_num
          rw [h0]
          have h1 : ((10000 : ℚ) - 10000, ((10000 : ℚ) - 10000) / 10000 * 100)
              = ((0 : ℚ), (0 : ℚ)) := by norm_num
          rw [h1]
          exact List.mem_cons_self _ _
        · rw [hdd1, hfold, hacc]
        · rw [hddp1, hfold, hacc]
        · intro q hq
          rw [hdd1, hfold]
          exact (chooseBest_bound _ (0, 0)).2 q hq
      · refine ⟨_, hmem, ?_, ?_, ?_⟩
        · rw [hdd1, hfold]
        · rw [hddp1, hfold]
        · intro q hq
          rw [hdd1, hfold]
          exact (chooseBest_bound _ (0, 0)).2 q hq
    · exfalso
      rw [hr, backtestMetrics_not_pos _ _ hpos] at htr
      exact absurd htr (by norm_num [baseResult])

/-- C2 counterexample: the concrete backtest `r0` has five trades and a
recorded `max_drawdown_percent` of `580/13` (≈ 44.6%), measured at the
point of the largest **absolute** decline, whereas the largest
peak-to-trough **percent** decline along the same equity curve is
`175/3` (≈ 58.3%): the claimed equality fails. -/
theorem backtest_drawdown_percent_counterexample :
    backtest_strategy s0 d0 = .ok r0 ∧ 0 < r0.total_trades ∧
    r0.max_drawdown_percent ≠ maxDrawdownPercentSpec
      (equityCurve 10000 (r0.trades.map Trade.profit_loss_percent)) := by
  refine ⟨backtest_s0_d0, by norm_num [r0], ?_⟩
  have hcurve : equityCurve 10000 (r0.trades.map Trade.profit_loss_percent)
      = [10000, 5000, 12500/3, 50000/3, 200000/13, 120000/13] := by
    norm_num [equityCurve, r0, List.scanl]
  rw [hcurve]
  have hspec : maxDrawdownPercentSpec
      [10000, 5000, 12500/3, 50000/3, 200000/13, 120000/13] = 175/3 := by
    norm_num [maxDrawdownPercentSpec, List.range_succ, List.headI, max_def]
  rw [hspec]
  norm_num [r0]

/-- Witness for the amended C2 at the concrete backtest `r0`. -/
theorem backtest_drawdown_at_abs_argmax_witness :
    (backtest_strategy s0 d0 = .ok r0 ∧ 0 < r0.total_trades) ∧
    ∃ pr ∈ ddPoints
        (equityCurve 10000 (r0.trades.map Trade.profit_loss_percent)).headI
        (equityCurve 10000 (r0.trades.map Trade.profit_loss_percent)),
      r0.max_drawdown = pr.1 ∧ r0.max_drawdown_percent = pr.2 ∧
      ∀ q ∈ ddPoints
          (equityCurve 10000 (r0.trades.map Trade.profit_loss_percent)).headI
          (equityCurve 10000 (r0.trades.map Trade.profit_loss_percent)),
        q.1 ≤ r0.max_drawdown :=
  ⟨⟨backtest_s0_d0, by norm_num [r0]⟩,
    backtest_drawdown_at_abs_argmax s0 d0 r0 backtest_s0_d0 (by norm_num [r0])⟩

/-- If the running best is set, one loop iteration keeps it or replaces
it with a better-scoring one. -/
theorem optStep_mono (strategy : Strategy) (data : List Bar)
    (best : Option OptBest) (c : Params) (b0 : OptBest) (hb : best = some b0) :
    ∃ b1, optStep strategy data best c = some b1 ∧
      b0.performance_score ≤ b1.performance_score := by
  cases hbt : backtest_strategy (applyCombo strategy c) data with
  | error e =>
    simp only [optStep, hbt]
    exact ⟨b0, hb, le_refl _⟩
  | ok br =>
    simp only [optStep, hbt]
    by_cases htr : 0 < br.total_trades
    · rw [if_pos htr, hb]
      dsimp only
      by_cases hsc : b0.performance_score < performanceScore br
      · rw [if_pos hsc]
        exact ⟨_, rfl, le_of_lt hsc⟩
      · rw [if_neg hsc]
        exact ⟨b0, rfl, le_refl _⟩
    · rw [if_neg htr]
      exact ⟨b0, hb, le_refl _⟩

/-- An evaluated (non-skipped) combination forces the running best to a
score at least as large as its own. -/
theorem optStep_covers (strategy : Strategy) (data : List Bar)
    (best : Option OptBest) (c : Params) (br : BacktestResult)
    (hbt : backtest_strategy (applyCombo strategy c) data = .ok br)
    (htr : 0 < br.total_trades) :
    ∃ b1, optStep strategy data best c = some b1 ∧
      performanceScore br ≤ b1.performance_score := by
  simp only [optStep, hbt]
  rw [if_pos htr]
  cases best with
  | none => exact ⟨_, rfl, le_refl _⟩
  | some b0 =>
    dsimp only
    by_cases hsc : b0.performance_score < performanceScore br
    · rw [if_pos hsc]
      exact ⟨_, rfl, le_refl _⟩
    · rw [if_neg hsc]
      exact ⟨b0, rfl, le_of_not_lt hsc⟩

/-- Over the whole loop: every evaluated combination's score is dominated
by the final best, and an already-set best only improves. -/
theorem optFold_bound (strategy : Strategy) (data : List Bar)
    (combos : List Params) :
    ∀ best : Option OptBest,
      (∀ c ∈ combos, ∀ br, backtest_strategy (applyCombo strategy c) data = .ok br →
        0 < br.total_trades →
        ∃ b, combos.foldl (optStep strategy data) best = some b ∧
          performanceScore br ≤ b.performance_score) ∧
      (∀ b0, best = some b0 →
        ∃ b, combos.foldl (optStep strategy data) best = some b ∧
          b0.performance_score ≤ b.performance_score) := by
  induction combos with
  | nil =>
    intro best
    refine ⟨fun c hc => absurd hc (List.not_mem_nil c), fun b0 hb => ⟨b0, hb, le_refl _⟩⟩
  | cons c rest ih =>
    intro best
    rw [List.foldl_cons]
    constructor
    · intro c' hc' br hbt htr
      rcases List.mem_cons.mp hc' with hceq | hcmem
      · rcases optStep_covers strategy data best c br (hceq ▸ hbt) htr with ⟨b1, hb1, hsc⟩
        rcases (ih (optStep strategy data best c)).2 b1 hb1 with ⟨b, hb, hsc2⟩
        exact ⟨b, hb, le_trans hsc hsc2⟩
      · exact (ih (optStep strategy data best c)).1 c' hcmem br hbt htr
    · intro b0 hb0
      rcases optStep_mono strategy data best c b0 hb0 with ⟨b1, hb1, hsc⟩
      rcases (ih (optStep strategy data best c)).2 b1 hb1 with ⟨b, hb, hsc2⟩
      exact ⟨b, hb, le_trans hsc hsc2⟩

/-- If every combination is skipped (no trades or a failed backtest), the
loop never sets a best. -/
theorem optFold_none (strategy : Strategy) (data : List Bar)
    (combos : List Params)
    (hskip : ∀ c ∈ combos, ∀ br,
      backtest_strategy (applyCombo strategy c) data = .ok br →
      ¬ 0 < br.total_trades) :
    combos.foldl (optStep strategy data) none = none := by
  induction combos with
  | nil => rfl
  | cons c rest ih =>
    rw [List.foldl_cons]
    have hstep : optStep strategy data none c = none := by
      cases hbt : backtest_strategy (applyCombo strategy c) data with
      | error e => simp only [optStep, hbt]
      | ok br =>
        simp only [optStep, hbt]
        rw [if_neg (hskip c (List.mem_cons_self c rest) br hbt)]
    rw [hstep]
    exact ih (fun c' hc' => hskip c' (List.mem_cons_of_mem c hc'))

/-- The final best, when set starting from `none`, comes from one of the
combinations: its strategy is that combination's overlay, its result is
that strategy's backtest with at least one trade, and its score is the
performance score of that result. -/
theorem optFold_provenance (strategy : Strategy) (data : List Bar)
    (combos : List Params) :
    ∀ (best : Option OptBest) (b : OptBest),
      combos.foldl (optStep strategy data) best = some b →
      best = some b ∨
      ∃ c ∈ combos, b.strategy = applyCombo strategy c ∧
        backtest_strategy b.strategy data = .ok b.backtest_result ∧
        0 < b.backtest_result.total_trades ∧
        b.performance_score = performanceScore b.backtest_result := by
  induction combos with
  | nil => intro best b h; exact Or.inl h
  | cons c rest ih =>
    intro best b h
    rw [List.foldl_cons] at h
    rcases ih (optStep strategy data best c) b h with hstep | ⟨c', hc', hw⟩
    · cases hbt : backtest_strategy (applyCombo strategy c) data with
      | error e =>
        simp only [optStep, hbt] at hstep
        exact Or.inl hstep
      | ok br =>
        simp only [optStep, hbt] at hstep
        by_cases htr : 0 < br.total_trades
        · rw [if_pos htr] at hstep
          cases hbest : best with
          | none =>
            rw [hbest] at hstep
            refine Or.inr ⟨c, List.mem_cons_self c rest, ?_⟩
            have hb : b = ⟨applyCombo strategy c, br, performanceScore br⟩ :=
              (Option.some.inj hstep).symm
            rw [hb]
            exact ⟨rfl, hbt, htr, rfl⟩
          | some b0 =>
            rw [hbest] at hstep
            dsimp only at hstep
            by_cases hsc : b0.performance_score < performanceScore br
            · rw [if_pos hsc] at hstep
              refine Or.inr ⟨c, List.mem_cons_self c rest, ?_⟩
              have hb : b = ⟨applyCombo strategy c, br, performanceScore br⟩ :=
                (Option.some.inj hstep).symm
              rw [hb]
              exact ⟨rfl, hbt, htr, rfl⟩
            · rw [if_neg hsc] at hstep
              exact Or.inl (hbest ▸ hstep)
        · rw [if_neg htr] at hstep
          exact Or.inl hstep
    · exact Or.inr ⟨c', List.mem_cons_of_mem c hc', hw⟩

/-- C1: under valid inputs (≥10 bars, non-empty ranges, product within
the cap), `optimize_strategy` returns a best-of-exhaustive-search result:
the returned strategy/backtest pair comes from one of the enumerated
combinations and its performance score — `0.5 × profit_percent + 0.3 ×
win_rate_percent − 0.2 × max_drawdown_percent` (`performanceScore`) —
dominates every evaluated (at-least-one-trade) combination; and when no
combination produces a trade, a failure is returned. -/
theorem optimize_best_of_search (strategy : Strategy) (data : List Bar)
    (param_ranges : List (String × List ℕ)) (hlen : 10 ≤ data.length)
    (hne : param_ranges ≠ [])
    (hcap : (param_ranges.map (fun kv => kv.2.length)).foldl (fun a b => a * b) 1 ≤ 100) :
    ((∀ c ∈ generateCombinations param_ranges, ∀ br,
        backtest_strategy (applyCombo strategy c) data = .ok br →
        ¬ 0 < br.total_trades) →
      (optimize_strategy strategy data param_ranges).1
        = .error "No valid parameter combinations found") ∧
    (∀ out, (optimize_strategy strategy data param_ranges).1 = .ok out →
      (∃ c ∈ generateCombinations param_ranges,
        out.optimized_strategy = applyCombo strategy c ∧
        backtest_strategy out.optimized_strategy data = .ok out.backtest_result ∧
        0 < out.backtest_result.total_trades ∧
        out.performance_score = performanceScore out.backtest_result) ∧
      ∀ c ∈ generateCombinations param_ranges, ∀ br,
        backtest_strategy (applyCombo strategy c) data = .ok br →
        0 < br.total_trades →
        performanceScore br ≤ out.performance_score) := by
  have hie : param_ranges.isEmpty = false := by
    cases hp : param_ranges with
    | nil => exact absurd hp hne
    | cons a l => rfl
  have hu : optimize_strategy strategy data param_ranges
      = match (generateCombinations param_ranges).foldl (optStep strategy data) none with
        | none => (.error "No valid parameter combinations found",
            (generateCombinations param_ranges).length)
        | some b =>
          (.ok { optimized_strategy := b.strategy
                 backtest_result := b.backtest_result
                 performance_score := b.performance_score
                 tested_combinations :=
                   (param_ranges.map (fun kv => kv.2.length)).foldl (fun a b => a * b) 1 },
           (generateCombinations param_ranges).length) := by
    unfold optimize_strategy
    rw [if_neg (by omega)]
    simp only [hie, Bool.false_eq_true, if_false]
    rw [if_neg (not_lt.mpr hcap)]
  constructor
  · intro hskip
    rw [hu, optFold_none strategy data _ hskip]
  · intro out hout
    rw [hu] at hout
    cases hfold : (generateCombinations param_ranges).foldl (optStep strategy data) none with
    | none =>
      rw [hfold] at hout
      exact absurd hout (by simp)
    | some b =>
      rw [hfold] at hout
      dsimp only at hout
      have hobj : out = (⟨b.strategy, b.backtest_result, b.performance_score,
          (param_ranges.map (fun kv => kv.2.length)).foldl (fun a b => a * b) 1⟩ :
            OptSuccess) :=
        (Except.ok.inj hout).symm
      constructor
      · rcases optFold_provenance strategy data (generateCombinations param_ranges)
          none b hfold with hnone | ⟨c, hc, h1, h2, h3, h4⟩
        · exact absurd hnone (by simp)
        · exact ⟨c, hc, by rw [hobj]; exact h1, by rw [hobj]; exact h2,
            by rw [hobj]; exact h3, by rw [hobj]; exact h4⟩
      · intro c hc br hbt htr
        rcases (optFold_bound strategy data (generateCombinations param_ranges) none).1
          c hc br hbt htr with ⟨bb, hbb, hsc⟩
        have hbbe : bb = b := Option.some.inj (hbb.symm.trans hfold)
        rw [hobj]
        rw [hbbe] at hsc
        exact hsc

/-- Witness for C1 at the concrete strategy, data and singleton range. -/
theorem optimize_best_of_search_witness :
    (10 ≤ d0.length ∧ w1Ranges ≠ [] ∧
      (w1Ranges.map (fun kv => kv.2.length)).foldl (fun a b => a * b) 1 ≤ 100) ∧
    (((∀ c ∈ generateCombinations w1Ranges, ∀ br,
        backtest_strategy (applyCombo s0 c) d0 = .ok br →
        ¬ 0 < br.total_trades) →
      (optimize_strategy s0 d0 w1Ranges).1
        = .error "No valid parameter combinations found") ∧
    (∀ out, (optimize_strategy s0 d0 w1Ranges).1 = .ok out →
      (∃ c ∈ generateCombinations w1Ranges,
        out.optimized_strategy = applyCombo s0 c ∧
        backtest_strategy out.optimized_strategy d0 = .ok out.backtest_result ∧
        0 < out.backtest_result.total_trades ∧
        out.performance_score = performanceScore out.backtest_result) ∧
      ∀ c ∈ generateCombinations w1Ranges, ∀ br,
        backtest_strategy (applyCombo s0 c) d0 = .ok br →
        0 < br.total_trades →
        performanceScore br ≤ out.performance_score)) :=
  ⟨⟨by decide, by decide, by decide⟩,
    optimize_best_of_search s0 d0 w1Ranges (by decide) (by decide) (by decide)⟩

/-- C6: with ≥10 bars, whenever the full Cartesian-product size of the
parameter ranges exceeds 100, `optimize_strategy` fails with the
validation message citing the 100-combination cap, and the instrumented
backtest counter shows that no backtest was run. -/
theorem optimize_combination_cap (strategy : Strategy) (data : List Bar)
    (param_ranges : List (String × List ℕ)) (hlen : 10 ≤ data.length)
    (hbig : 100 < (param_ranges.map (fun kv => kv.2.length)).foldl (fun a b => a * b) 1) :
    optimize_strategy strategy data param_ranges
      = (.error ("Too many parameter combinations ("
          ++ toString ((param_ranges.map (fun kv => kv.2.length)).foldl (fun a b => a * b) 1)
          ++ "). Maximum allowed is " ++ toString (100 : ℕ) ++ "."), 0) := by
  have hie : param_ranges.isEmpty = false := by
    cases hp : param_ranges with
    | nil =>
      rw [hp] at hbig
      norm_num at hbig
    | cons a l => rfl
  unfold optimize_strategy
  rw [if_neg (by omega)]
  simp only [hie, Bool.false_eq_true, if_false]
  rw [if_pos hbig]

/-- Witness for C6: exactly 101 combinations are rejected with the cap
message and zero backtests. -/
theorem optimize_combination_cap_witness :
    (10 ≤ d0.length ∧
      100 < (capRanges.map (fun kv => kv.2.length)).foldl (fun a b => a * b) 1) ∧
    optimize_strategy s0 d0 capRanges
      = (.error ("Too many parameter combinations ("
          ++ toString ((capRanges.map (fun kv => kv.2.length)).foldl (fun a b => a * b) 1)
          ++ "). Maximum allowed is " ++ toString (100 : ℕ) ++ "."), 0) :=
  ⟨⟨by decide, by decide⟩,
    optimize_combination_cap s0 d0 capRanges (by decide) (by decide)⟩
